import Mathlib

/-!
# VQEngine: frame orchestration (`Source/Application/Source/Engine.cpp`)

A shallow embedding of the per-frame logic of `Engine`: light gathering in
`PreRender`, the runtime toggles, input handling, and the pass sequence issued by
`Render`.  Calls into collaborators whose bodies live outside `Engine.cpp`
(renderer, passes, scene manager, camera, input) are recorded as entries of a
call trace; the values they hand back are carried as data.

Conventions.
* `float` quantities are exact rationals.
* `size_t` counters are natural numbers: they only count elements of an in-memory
  light list, so they stay far below `2^64`.
* `std::array::operator[]` is unchecked.  A light bucket is therefore a map from slot
  index to content, and the capacity of the backing array is a separate number that
  says which slots are inside the array.
-/

namespace VQEngine

/-! ## Opaque handles and small value types -/

abbrev TextureID := Int
abbrev SamplerID := Int
abbrev RenderTargetID := Int
abbrev DepthTargetID := Int
abbrev BufferID := Int
abbrev DepthStencilStateID := Int

/-- A 4x4 matrix (`XMMATRIX`). -/
abbrev XMMATRIX := Matrix (Fin 4) (Fin 4) ℚ

/-- Three floats (`vec3`). -/
structure vec3 where
  x : ℚ
  y : ℚ
  z : ℚ

/-- Two floats (`vec2`). -/
structure vec2 where
  x : ℚ
  y : ℚ

/-- Shader identifiers used by `Engine.cpp` (`EShaders`, declared in the renderer). -/
inductive EShaders
  | FORWARD_PHONG
  | FORWARD_BRDF
  | DEFERRED_GEOMETRY
  | TEXTURE_COORDINATES
  | NORMAL
  | UNLIT
  | TBN
  | DEBUG
  deriving DecidableEq, Repr

/-- Skybox selection; `SKYBOX_PRESET_COUNT` is the "none" sentinel. -/
inductive ESkyboxPreset
  | preset (i : Nat)
  | SKYBOX_PRESET_COUNT
  deriving DecidableEq, Repr

/-! ## Lights -/

/-- The light kinds, `Light::ELightType`, in declaration order (`LIGHT_TYPE_COUNT = 3`). -/
inductive ELightType
  | POINT
  | SPOT
  | DIRECTIONAL
  deriving DecidableEq, Repr

/-- The record a light contributes to the shader constant buffer. -/
structure LightShaderSignature where
  blob : Int
  deriving DecidableEq, Repr

/-- A scene light.  `ShaderSignature` and `GetLightSpaceMatrix` stand for the results
of the methods of the same names, `worldTransform` for
`_transform.WorldTransformationMatrix()` and `_color` for `_color.Value()`. -/
structure Light where
  _type : ELightType
  _castsShadow : Bool
  _renderMesh : BufferID
  worldTransform : XMMATRIX
  _color : vec3
  ShaderSignature : LightShaderSignature
  GetLightSpaceMatrix : XMMATRIX

/-- Storage of one light bucket, addressed by slot index. -/
abbrev LightDataArray := Nat → LightShaderSignature

/-- One entry of the shadow caster table. -/
structure ShadowCasterData where
  shadowMap : TextureID
  shadowSampler : SamplerID
  lightSpaceMatrix : XMMATRIX

/-- The light aggregate `mSceneLightData`. -/
structure SceneLightData where
  pointLights : LightDataArray
  spotLights : LightDataArray
  pointLightCount : Nat
  spotLightCount : Nat
  shadowCasterData : Nat → ShadowCasterData

/-- Modelled from the spec: `SceneLightData::ResetCounts`, whose body is outside
`Engine.cpp`; "Reset all counts to zero". -/
def SceneLightData.ResetCounts (d : SceneLightData) : SceneLightData :=
  { d with pointLightCount := 0, spotLightCount := 0 }

/-- The two buckets that the pointer tables of `PreRender` refer to. -/
inductive Bucket
  | point
  | spot
  deriving DecidableEq, Repr

/-- The tables `lightCounts` / `lightData` of `PreRender`: entry `POINT` is the point
bucket, entries `SPOT` and `DIRECTIONAL` are both the spot bucket. -/
def bucketOf : ELightType → Bucket
  | .POINT => .point
  | .SPOT => .spot
  | .DIRECTIONAL => .spot

/-- Reads `*lightCounts[t]`. -/
def SceneLightData.count (d : SceneLightData) : Bucket → Nat
  | .point => d.pointLightCount
  | .spot => d.spotLightCount

/-- Reads `*lightData[t]`. -/
def SceneLightData.data (d : SceneLightData) : Bucket → LightDataArray
  | .point => d.pointLights
  | .spot => d.spotLights

/-- One iteration of the gather loop:
`lightIndex = (*lightCounts[l._type])++; (*lightData[l._type])[lightIndex] = l.ShaderSignature();`
The store is not guarded by the capacity of the array. -/
def gatherLight (d : SceneLightData) (l : Light) : SceneLightData :=
  match bucketOf l._type with
  | .point =>
      let lightIndex := d.pointLightCount
      { d with pointLightCount := lightIndex + 1,
               pointLights := Function.update d.pointLights lightIndex l.ShaderSignature }
  | .spot =>
      let lightIndex := d.spotLightCount
      { d with spotLightCount := lightIndex + 1,
               spotLights := Function.update d.spotLights lightIndex l.ShaderSignature }

/-- The loop `for (const Light& l : mLights)` of `PreRender`. -/
def gatherLights (d : SceneLightData) (mLights : List Light) : SceneLightData :=
  mLights.foldl gatherLight d

/-- The members of `ShadowMapPass` that `Engine.cpp` reads. -/
structure ShadowMapPass where
  _shadowMap : TextureID
  _shadowSampler : SamplerID
  _shadowDepthTarget : DepthTargetID

/-- The light part of `PreRender` (lines 302-327): reset the counts, gather, then fill
shadow caster slot 0 when the spot count is positive, using `mLights[0]`. -/
def PreRenderLights (sm : ShadowMapPass) (mLights : List Light) (d : SceneLightData) :
    SceneLightData :=
  let d1 := gatherLights d.ResetCounts mLights
  if 0 < d1.spotLightCount then
    match mLights.head? with
    | some l0 =>
        let caster : ShadowCasterData :=
          ⟨sm._shadowMap, sm._shadowSampler, l0.GetLightSpaceMatrix⟩
        { d1 with shadowCasterData := Function.update d1.shadowCasterData 0 caster }
    | none => d1
  else d1

/-! ## Engine state -/

/-- The geometry buffer of the deferred path. -/
structure GBuffer where
  bInitialized : Bool
  _normalRT : RenderTargetID
  _diffuseRoughnessRT : RenderTargetID
  _specularMetallicRT : RenderTargetID
  _positionRT : RenderTargetID

/-- The members of `DeferredRenderingPasses` that `Engine.cpp` reads. -/
structure DeferredRenderingPasses where
  _GBuffer : GBuffer
  _skyboxStencilState : DepthStencilStateID

/-- Modelled from the spec: `DeferredRenderingPasses::InitializeGBuffer`, whose body is
outside `Engine.cpp`; the GBuffer is "allocated lazily on first transition into deferred
mode" and afterwards `initialized` holds. -/
def DeferredRenderingPasses.InitializeGBuffer (p : DeferredRenderingPasses) :
    DeferredRenderingPasses :=
  { p with _GBuffer := { p._GBuffer with bInitialized := true } }

/-- Modelled from the spec: `DeferredRenderingPasses::ClearGBuffer`, whose body is outside
`Engine.cpp`; the GBuffer is "cleared (not deallocated) when leaving deferred mode", so
the targets and the `initialized` flag are kept. -/
def DeferredRenderingPasses.ClearGBuffer (p : DeferredRenderingPasses) :
    DeferredRenderingPasses := p

/-- The members of the SSAO pass (`mSSAOPass`) that `Engine.cpp` reads or writes. -/
structure AmbientOcclusionPass where
  intensity : ℚ
  radius : ℚ
  blurRenderTarget : RenderTargetID
  whiteTexture4x4 : TextureID

/-- The bloom sub-pass of the post-process pass. -/
structure BloomPass where
  _isEnabled : Bool
  _blurPingPong0 : RenderTargetID

/-- Modelled from the spec: `BloomPass::ToggleBloomPass`, whose body is outside
`Engine.cpp`; a "simple boolean flip". -/
def BloomPass.ToggleBloomPass (b : BloomPass) : BloomPass :=
  { b with _isEnabled := !b._isEnabled }

/-- The members of `PostProcessPass` that `Engine.cpp` reads. -/
structure PostProcessPass where
  _worldRenderTarget : RenderTargetID
  _bloomPass : BloomPass

/-- The per-frame camera matrices `mSceneView`. -/
structure SceneView where
  view : XMMATRIX
  viewToWorld : XMMATRIX
  projection : XMMATRIX
  viewProj : XMMATRIX

/-- What the camera hands to `PreRender` and `Render`. -/
structure Camera where
  GetViewMatrix : XMMATRIX
  GetViewInverseMatrix : XMMATRIX
  GetProjectionMatrix : XMMATRIX
  GetPositionF : vec3

/-- A scene object, as far as `Render` looks at it. -/
structure GameObject where
  id : Int
  bRenderTBN : Bool

/-- The renderer settings read by `Initialize` and by the debug pass. -/
structure RendererSettings where
  bUseDeferredRendering : Bool
  bAmbientOcclusion : Bool
  windowWidth : Int
  windowHeight : Int

/-- Values the renderer hands back (texture of a target) and the default-state
constants `Engine.cpp` passes to it. -/
structure Renderer where
  GetRenderTargetTexture : RenderTargetID → TextureID
  GetDepthTargetTexture : DepthTargetID → TextureID
  CULL_NONE : Int
  DEPTH_STENCIL_W : DepthStencilStateID

/-- The state of the scene collaborators during one frame (after the camera and scene
update of that frame): the engine light list `mLights`, the light list of
`mpSceneManager->mRoomScene`, the scene objects and the camera. -/
structure FrameScene where
  mLights : List Light
  mRoomSceneLights : List Light
  sceneObjects : List GameObject
  camera : Camera

/-- The members of `Engine` used by the frame logic. -/
structure Engine where
  mpRenderer : Renderer
  sEngineSettings : RendererSettings
  mUseDeferredRendering : Bool
  mbIsAmbientOcclusionOn : Bool
  mDebugRender : Bool
  mSelectedShader : EShaders
  mbIsPaused : Bool
  mActiveSkybox : ESkyboxPreset
  mWorldDepthTarget : DepthTargetID
  mNormalSampler : SamplerID
  mZPassObjects : List GameObject
  mDeferredRenderingPasses : DeferredRenderingPasses
  mSSAOPass : AmbientOcclusionPass
  mShadowMapPass : ShadowMapPass
  mPostProcessPass : PostProcessPass
  mSceneView : SceneView
  mSceneLightData : SceneLightData

/-- The answers of the input collaborator during one `HandleInput`. -/
structure Input where
  escapeDown : Bool
  backspaceTriggered : Bool
  f1Triggered : Bool
  f2Triggered : Bool
  f3Triggered : Bool
  f4Triggered : Bool
  f6Triggered : Bool
  f7Triggered : Bool
  f8Triggered : Bool
  f9Triggered : Bool
  semicolonTriggered : Bool
  rTriggered : Bool
  backslashTriggered : Bool
  shiftDown : Bool
  scrollUp : Bool
  scrollDown : Bool
  deriving DecidableEq, Repr

/-- A frame without any input event. -/
def Input.idle : Input :=
  ⟨false, false, false, false, false, false, false, false, false, false, false, false,
    false, false, false, false⟩

/-! ## Calls issued to collaborators -/

/-- A screen-space quad of the debug strip. -/
structure DrawQuadOnScreenCommand where
  dimensionsInPixels : vec2
  bottomLeftCornerScreenCoordinates : vec2
  texture : TextureID
  bIsDepthTexture : Bool

/-- One call made by the engine on a collaborator, in program order. -/
inductive Call
  | BeginEvent (label : String)
  | EndEvent
  | BindRenderTarget (rt : RenderTargetID)
  | UnbindRenderTarget
  | BindDepthTarget (dt : DepthTargetID)
  | UnbindDepthTarget
  | Reset
  | SetRasterizerState (s : Int)
  | SetViewport
  | SetDepthStencilState (s : DepthStencilStateID)
  | SetShader (s : EShaders)
  | SetBufferObj (b : BufferID)
  | SetConstant1f (name : String) (v : ℚ)
  | SetConstant3f (name : String) (v : vec3)
  | SetConstant4x4f (name : String) (m : XMMATRIX)
  | SetConstantStruct (name : String) (data : LightDataArray)
  | SetTexture (name : String) (t : TextureID)
  | SetSamplerState (name : String) (s : SamplerID)
  | Apply
  | DrawIndexed
  | DrawQuadOnScreen (cmd : DrawQuadOnScreenCommand)
  | Begin
  | End
  | GetRenderTargetTexture (rt : RenderTargetID)
  | GetDepthTargetTexture (dt : DepthTargetID)
  | RenderShadowMaps (casters : List Light) (zPassObjects : List GameObject)
  | SetGeometryRenderingStates
  | SceneManagerRender
  | RenderOcclusion (texNormal : TextureID) (texPosition : TextureID)
  | GaussianBlurPass
  | RenderLightingPass (target : RenderTargetID) (lights : SceneLightData) (tSSAO : TextureID)
  | SkyboxRender (preset : ESkyboxPreset)
  | GameObjectRender (obj : GameObject)
  | PostProcessRender
  | InitializeGBuffer
  | ClearGBuffer
  | ToggleBloomPass
  | ReloadLevel
  | ReloadShaders
  | LogInfo (msg : String)
  | TimerTick
  | CalcFrameStats
  | CameraUpdate
  | SceneManagerUpdate
  | InputUpdate
  | PreRender
  | Render

/-! ## Runtime toggles -/

/-- `Engine::ToggleLightingModel` (lines 98-109). -/
def ToggleLightingModel (e : Engine) : Engine × List Call :=
  if !e.mUseDeferredRendering then
    ({ e with mSelectedShader :=
        if e.mSelectedShader = EShaders.FORWARD_PHONG then EShaders.FORWARD_BRDF
        else EShaders.FORWARD_PHONG }, [])
  else
    (e, [Call.LogInfo "Deferred mode only supports BRDF Lighting model..."])

/-- `Engine::ToggleRenderingPath` (lines 111-126). -/
def ToggleRenderingPath (e : Engine) : Engine × List Call :=
  let e1 := { e with mUseDeferredRendering := !e.mUseDeferredRendering }
  let doInit := !e1.mDeferredRenderingPasses._GBuffer.bInitialized && e1.mUseDeferredRendering
  let e2 :=
    if doInit then
      { e1 with mDeferredRenderingPasses := e1.mDeferredRenderingPasses.InitializeGBuffer }
    else e1
  let t2 := if doInit then [Call.InitializeGBuffer] else []
  let t3 := [Call.LogInfo "Toggle Rendering Path: %s Rendering enabled"]
  let doClear := !e2.mUseDeferredRendering
  let e4 :=
    if doClear then
      { e2 with mDeferredRenderingPasses := e2.mDeferredRenderingPasses.ClearGBuffer }
    else e2
  let t4 := if doClear then [Call.ClearGBuffer] else []
  (e4, t2 ++ t3 ++ t4)

/-- `Engine::Pause`. -/
def Pause (e : Engine) : Engine := { e with mbIsPaused := true }

/-- `Engine::Unpause`. -/
def Unpause (e : Engine) : Engine := { e with mbIsPaused := false }

/-- Modelled from the spec: `Engine::TogglePause`, whose body is outside `Engine.cpp`;
"Pause/unpause": it switches between the paused and the running state. -/
def TogglePause (e : Engine) : Engine := { e with mbIsPaused := !e.mbIsPaused }

/-! ## Input handling -/

/-- The block `if (!mUseDeferredRendering) { F1 .. F4 }` of `HandleInput`. -/
def selectDebugShader (e : Engine) (inp : Input) : Engine :=
  if !e.mUseDeferredRendering then
    let e := if inp.f1Triggered then { e with mSelectedShader := EShaders.TEXTURE_COORDINATES } else e
    let e := if inp.f2Triggered then { e with mSelectedShader := EShaders.NORMAL } else e
    let e := if inp.f3Triggered then { e with mSelectedShader := EShaders.UNLIT } else e
    if inp.f4Triggered then
      { e with mSelectedShader :=
          if e.mSelectedShader = EShaders.TBN then EShaders.FORWARD_BRDF else EShaders.TBN }
    else e
  else e

/-- The scroll-down branch on one SSAO parameter: subtract the step, then clamp,
`v -= step; if (v < 1.001) v = 1.0f;`. -/
def scrollDownClamp (v step : ℚ) : ℚ :=
  let v1 := v - step
  if v1 < 1001 / 1000 then 1 else v1

/-- The block `if (mbIsAmbientOcclusionOn) { ... }` of `HandleInput` (lines 251-265). -/
def adjustSSAO (e : Engine) (inp : Input) : Engine × List Call :=
  if e.mbIsAmbientOcclusionOn then
    if inp.shiftDown then
      let step : ℚ := 1 / 10
      let i0 := e.mSSAOPass.intensity
      let i1 := if inp.scrollUp then i0 + step else i0
      let t1 := if inp.scrollUp then [Call.LogInfo "SSAO Intensity: %.2f"] else []
      let i2 := if inp.scrollDown then scrollDownClamp i1 step else i1
      let t2 := if inp.scrollDown then [Call.LogInfo "SSAO Intensity: %.2f"] else []
      ({ e with mSSAOPass := { e.mSSAOPass with intensity := i2 } }, t1 ++ t2)
    else
      let step : ℚ := 1 / 2
      let r0 := e.mSSAOPass.radius
      let r1 := if inp.scrollUp then r0 + step else r0
      let t1 := if inp.scrollUp then [Call.LogInfo "SSAO Radius: %.2f"] else []
      let r2 := if inp.scrollDown then scrollDownClamp r1 step else r1
      let t2 := if inp.scrollDown then [Call.LogInfo "SSAO Radius: %.2f"] else []
      ({ e with mSSAOPass := { e.mSSAOPass with radius := r2 } }, t1 ++ t2)
  else (e, [])

/-- The key handling of `HandleInput` between the pause key and the SSAO block
(lines 231-248). -/
def handleKeys (e : Engine) (inp : Input) : Engine × List Call :=
  let e1 := selectDebugShader e inp
  let r6 := if inp.f6Triggered then ToggleLightingModel e1 else (e1, [])
  let e7 := if inp.f7Triggered then { r6.1 with mDebugRender := !r6.1.mDebugRender } else r6.1
  let r8 := if inp.f8Triggered then ToggleRenderingPath e7 else (e7, [])
  let e9 :=
    if inp.f9Triggered then
      { r8.1 with mPostProcessPass :=
          { r8.1.mPostProcessPass with
              _bloomPass := r8.1.mPostProcessPass._bloomPass.ToggleBloomPass } }
    else r8.1
  let t9 := if inp.f9Triggered then [Call.ToggleBloomPass] else []
  let e10 :=
    if inp.semicolonTriggered then
      { e9 with mbIsAmbientOcclusionOn := !e9.mbIsAmbientOcclusionOn }
    else e9
  let t11 := if inp.rTriggered then [Call.ReloadLevel] else []
  let t12 := if inp.backslashTriggered then [Call.ReloadShaders] else []
  (e10, r6.2 ++ r8.2 ++ t9 ++ t11 ++ t12)

/-- `Engine::HandleInput` (lines 220-268): the returned flag is `false` exactly when
Escape is down. -/
def HandleInput (e : Engine) (inp : Input) : Bool × Engine × List Call :=
  if inp.escapeDown then (false, e, [])
  else
    let e1 := if inp.backspaceTriggered then TogglePause e else e
    let r2 := handleKeys e1 inp
    let r3 := adjustSSAO r2.1 inp
    (true, r3.1, r2.2 ++ r3.2)

/-! ## PreRender -/

/-- `Engine::PreRender` (lines 290-328). -/
def PreRender (e : Engine) (sc : FrameScene) : Engine :=
  let view := sc.camera.GetViewMatrix
  let viewInverse := sc.camera.GetViewInverseMatrix
  let proj := sc.camera.GetProjectionMatrix
  { e with
    mSceneView := ⟨view, viewInverse, proj, view * proj⟩,
    mSceneLightData := PreRenderLights e.mShadowMapPass sc.mLights e.mSceneLightData }

/-! ## Render -/

/-- The calls issued for one light inside `RenderLights`. -/
def renderLightCalls (viewProj : XMMATRIX) (light : Light) : List Call :=
  [ Call.SetBufferObj light._renderMesh,
    Call.SetConstant4x4f "worldViewProj" (light.worldTransform * viewProj),
    Call.SetConstant3f "diffuse" light._color,
    Call.SetConstant1f "isDiffuseMap" 0,
    Call.Apply,
    Call.DrawIndexed ]

/-- `Engine::RenderLights` (lines 330-348). -/
def RenderLights (e : Engine) (sc : FrameScene) : List Call :=
  [Call.BeginEvent "Render Lights Pass", Call.Reset, Call.SetShader EShaders.UNLIT]
    ++ sc.mLights.flatMap (renderLightCalls e.mSceneView.viewProj)
    ++ [Call.EndEvent]

/-- `Engine::SendLightData` (lines 350-374), without the `_DEBUG`-only warnings. -/
def SendLightData (e : Engine) : List Call :=
  let d := e.mSceneLightData
  [ Call.SetConstant1f "lightCount" d.pointLightCount,
    Call.SetConstant1f "spotCount" d.spotLightCount,
    Call.SetConstantStruct "lights" d.pointLights,
    Call.SetConstantStruct "spots" d.spotLights ]
    ++ (if 0 < d.spotLightCount then
          [ Call.SetConstant4x4f "lightSpaceMat" (d.shadowCasterData 0).lightSpaceMatrix,
            Call.SetTexture "texShadowMap" (d.shadowCasterData 0).shadowMap,
            Call.SetSamplerState "sShadowSampler" (d.shadowCasterData 0).shadowSampler ]
        else [])

/-- The shadow stage of `Render` (lines 380-394). -/
def shadowStage (e : Engine) (sc : FrameScene) : List Call :=
  [ Call.BeginEvent "Shadow Pass",
    Call.UnbindRenderTarget,
    Call.RenderShadowMaps (sc.mRoomSceneLights.filter (fun l => l._castsShadow)) e.mZPassObjects,
    Call.EndEvent ]

/-- The renderer set-up between the shadow stage and the mode branch (lines 398-400). -/
def lightingSetup (e : Engine) : List Call :=
  [Call.Reset, Call.SetRasterizerState e.mpRenderer.CULL_NONE, Call.SetViewport]

/-- The texture fed to the lighting pass and shown in the debug strip as ambient
occlusion: the blurred SSAO target when AO is on, else the white fallback. -/
def aoTexture (e : Engine) : TextureID :=
  if e.mbIsAmbientOcclusionOn then e.mpRenderer.GetRenderTargetTexture e.mSSAOPass.blurRenderTarget
  else e.mSSAOPass.whiteTexture4x4

/-- The renderer query made while choosing the AO texture. -/
def aoTextureCalls (e : Engine) : List Call :=
  if e.mbIsAmbientOcclusionOn then [Call.GetRenderTargetTexture e.mSSAOPass.blurRenderTarget] else []

/-- The deferred branch of `Render` (lines 403-445). -/
def deferredStage (e : Engine) (sc : FrameScene) : List Call :=
  let gBuffer := e.mDeferredRenderingPasses._GBuffer
  let texNormal := e.mpRenderer.GetRenderTargetTexture gBuffer._normalRT
  let texPosition := e.mpRenderer.GetRenderTargetTexture gBuffer._positionRT
  [ Call.GetRenderTargetTexture gBuffer._normalRT,
    Call.GetRenderTargetTexture gBuffer._diffuseRoughnessRT,
    Call.GetRenderTargetTexture gBuffer._specularMetallicRT,
    Call.GetRenderTargetTexture gBuffer._positionRT,
    Call.BeginEvent "Geometry Pass",
    Call.SetGeometryRenderingStates,
    Call.SceneManagerRender,
    Call.EndEvent ]
    ++ (if e.mbIsAmbientOcclusionOn then
          [ Call.BeginEvent "Ambient Occlusion Pass",
            Call.RenderOcclusion texNormal texPosition,
            Call.GaussianBlurPass,
            Call.EndEvent ]
        else [])
    ++ aoTextureCalls e
    ++ [ Call.BeginEvent "Lighting Pass",
         Call.RenderLightingPass e.mPostProcessPass._worldRenderTarget e.mSceneLightData
           (aoTexture e),
         Call.EndEvent,
         Call.BindDepthTarget e.mWorldDepthTarget ]
    ++ RenderLights e sc
    ++ (if e.mActiveSkybox ≠ ESkyboxPreset.SKYBOX_PRESET_COUNT then
          [ Call.SetDepthStencilState e.mDeferredRenderingPasses._skyboxStencilState,
            Call.SkyboxRender e.mActiveSkybox,
            Call.SetDepthStencilState e.mpRenderer.DEPTH_STENCIL_W,
            Call.UnbindDepthTarget ]
        else [])

/-- The shader the forward branch ends up with (line 450). -/
def forwardShader (e : Engine) : EShaders :=
  if e.mSelectedShader = EShaders.DEFERRED_GEOMETRY then EShaders.FORWARD_BRDF
  else e.mSelectedShader

/-- The forward branch of `Render` (lines 449-499), for the engine whose selected
shader has already been replaced by `forwardShader`.  The block guarded by
`mbIsAmbientOcclusionOn && false` never runs. -/
def forwardStage (e : Engine) (sc : FrameScene) : List Call :=
  [ Call.BindRenderTarget e.mPostProcessPass._worldRenderTarget,
    Call.BindDepthTarget e.mWorldDepthTarget,
    Call.SetDepthStencilState e.mpRenderer.DEPTH_STENCIL_W,
    Call.Begin ]
    ++ (if e.mActiveSkybox ≠ ESkyboxPreset.SKYBOX_PRESET_COUNT then
          [Call.SkyboxRender e.mActiveSkybox]
        else [Call.SetShader e.mSelectedShader, Call.Apply])
    ++ [Call.BeginEvent "Lighting Pass", Call.SetShader e.mSelectedShader]
    ++ (if e.mSelectedShader = EShaders.FORWARD_BRDF ∨ e.mSelectedShader = EShaders.FORWARD_PHONG then
          [ Call.SetConstant3f "cameraPos" sc.camera.GetPositionF,
            Call.SetSamplerState "sNormalSampler" e.mNormalSampler ]
            ++ SendLightData e
        else [])
    ++ [Call.SceneManagerRender, Call.EndEvent]
    ++ RenderLights e sc

/-- The tangent-frame debug stage of `Render` (lines 501-526). -/
def tbnStage (e : Engine) (sc : FrameScene) : List Call :=
  [Call.BeginEvent "Draw TBN Vectors"]
    ++ (if e.mUseDeferredRendering then [Call.BindDepthTarget e.mWorldDepthTarget] else [])
    ++ [Call.SetShader EShaders.TBN]
    ++ (sc.sceneObjects.filter (fun obj => obj.bRenderTBN)).map Call.GameObjectRender
    ++ (if e.mUseDeferredRendering then [Call.UnbindDepthTarget] else [])
    ++ [Call.SetShader e.mSelectedShader, Call.EndEvent]

/-- The body of the layout loop of the debug strip at index `i`:
`c[i].x = c[i-1].x + c[i-1].dimensionsInPixels.x + paddingPx`. -/
def offsetQuad (paddingPx : ℚ) (cmds : List DrawQuadOnScreenCommand) (i : Nat) :
    List DrawQuadOnScreenCommand :=
  match cmds[i - 1]?, cmds[i]? with
  | some prev, some cur =>
      cmds.set i
        { cur with bottomLeftCornerScreenCoordinates :=
            { cur.bottomLeftCornerScreenCoordinates with
              x := prev.bottomLeftCornerScreenCoordinates.x + prev.dimensionsInPixels.x
                    + paddingPx } }
  | _, _ => cmds

/-- The layout loop `for (size_t i = 1; i < c.size(); i++)` of the debug strip
(lines 579-580). -/
def layoutQuads (paddingPx : ℚ) (cmds : List DrawQuadOnScreenCommand) :
    List DrawQuadOnScreenCommand :=
  (List.range' 1 (cmds.length - 1)).foldl (offsetQuad paddingPx) cmds

/-- The six quads of the debug strip before and after layout (lines 552-582). -/
def quadCmds (e : Engine) : List DrawQuadOnScreenCommand :=
  let screenWidth : ℚ := e.sEngineSettings.windowWidth
  let screenHeight : ℚ := e.sEngineSettings.windowHeight
  let aspect : ℚ := screenWidth / screenHeight
  let bottomPaddingPx : ℚ := 0
  let heightPx : ℚ := 128
  let paddingPx : ℚ := 0
  let fullscreenTextureScaledDownSize : vec2 := ⟨heightPx * aspect, heightPx⟩
  let squareTextureScaledDownSize : vec2 := ⟨heightPx, heightPx⟩
  let r := e.mpRenderer
  let tShadowMap := r.GetDepthTargetTexture e.mShadowMapPass._shadowDepthTarget
  let tBlurredBloom := r.GetRenderTargetTexture e.mPostProcessPass._bloomPass._blurPingPong0
  let tDiffuseRoughness :=
    r.GetRenderTargetTexture e.mDeferredRenderingPasses._GBuffer._diffuseRoughnessRT
  let tSceneDepth := r.GetDepthTargetTexture 0
  let tNormals := r.GetRenderTargetTexture e.mDeferredRenderingPasses._GBuffer._normalRT
  let tAO := aoTexture e
  let screenPosition : vec2 := ⟨0, bottomPaddingPx⟩
  layoutQuads paddingPx
    [ ⟨fullscreenTextureScaledDownSize, screenPosition, tSceneDepth, true⟩,
      ⟨fullscreenTextureScaledDownSize, screenPosition, tDiffuseRoughness, false⟩,
      ⟨fullscreenTextureScaledDownSize, screenPosition, tNormals, false⟩,
      ⟨squareTextureScaledDownSize, screenPosition, tShadowMap, true⟩,
      ⟨fullscreenTextureScaledDownSize, screenPosition, tBlurredBloom, false⟩,
      ⟨fullscreenTextureScaledDownSize, screenPosition, tAO, false⟩ ]

/-- The debug stage of `Render` (lines 536-591). -/
def debugStage (e : Engine) : List Call :=
  if e.mDebugRender then
    [ Call.GetDepthTargetTexture e.mShadowMapPass._shadowDepthTarget,
      Call.GetRenderTargetTexture e.mPostProcessPass._bloomPass._blurPingPong0,
      Call.GetRenderTargetTexture e.mDeferredRenderingPasses._GBuffer._diffuseRoughnessRT,
      Call.GetDepthTargetTexture 0,
      Call.GetRenderTargetTexture e.mDeferredRenderingPasses._GBuffer._normalRT ]
      ++ aoTextureCalls e
      ++ [Call.BeginEvent "Debug Pass", Call.SetShader EShaders.DEBUG]
      ++ (quadCmds e).map Call.DrawQuadOnScreen
      ++ [Call.EndEvent]
  else []

/-- The engine after the mode branch of `Render`: only the forward branch writes
`mSelectedShader`. -/
def afterModeBranch (e : Engine) : Engine :=
  if e.mUseDeferredRendering then e else { e with mSelectedShader := forwardShader e }

/-- The mode branch of `Render` (lines 402-499). -/
def modeStage (e : Engine) (sc : FrameScene) : List Call :=
  if e.mUseDeferredRendering then deferredStage e sc
  else forwardStage (afterModeBranch e) sc

/-- `Engine::Render` (lines 376-594): the new engine state and the calls made, in
order. -/
def Render (e : Engine) (sc : FrameScene) : Engine × List Call :=
  let e1 := afterModeBranch e
  (e1,
    shadowStage e sc ++ lightingSetup e ++ modeStage e sc ++ tbnStage e1 sc
      ++ [Call.PostProcessRender] ++ debugStage e1 ++ [Call.End])

/-! ## The frame -/

/-- The part of `UpdateAndRender` guarded by `if (!mbIsPaused)` (lines 274-283). -/
def updateAndDraw (e : Engine) (sc : FrameScene) : Engine × List Call :=
  if !e.mbIsPaused then
    let e1 := PreRender e sc
    let r := Render e1 sc
    (r.1,
      [Call.CalcFrameStats, Call.CameraUpdate, Call.SceneManagerUpdate, Call.PreRender,
        Call.Render] ++ r.2)
  else (e, [])

/-- `Engine::UpdateAndRender` (lines 270-287): the returned flag is
`bExitApp = !HandleInput()`. -/
def UpdateAndRender (e : Engine) (inp : Input) (sc : FrameScene) : Bool × Engine × List Call :=
  let h := HandleInput e inp
  let bExitApp := !h.1
  let r := updateAndDraw h.2.1 sc
  (bExitApp, r.1, [Call.TimerTick] ++ h.2.2 ++ r.2 ++ [Call.InputUpdate])

/-- `Engine::Initialize` (lines 144-181), for an engine whose subsystems exist;
`rendererInitOk` is the result of `mpRenderer->Initialize`. -/
def Initialize (e : Engine) (rendererInitOk : Bool) : Bool × Engine :=
  if !rendererInitOk then (false, e)
  else
    let rendererSettings := e.sEngineSettings
    (true,
      { e with
        mUseDeferredRendering := rendererSettings.bUseDeferredRendering,
        mDeferredRenderingPasses := e.mDeferredRenderingPasses.InitializeGBuffer,
        mbIsAmbientOcclusionOn := rendererSettings.bAmbientOcclusion,
        mDebugRender := true,
        mSelectedShader :=
          if rendererSettings.bUseDeferredRendering then EShaders.DEFERRED_GEOMETRY
          else EShaders.FORWARD_BRDF,
        mWorldDepthTarget := 0 })

/-! ## Specification vocabulary -/

/-- The light is routed to bucket `b` by the tables of `PreRender`. -/
def routedTo (b : Bucket) (l : Light) : Bool := decide (bucketOf l._type = b)

/-- Some slot at or beyond `capacity` differs between the two contents of a bucket:
storage outside the first `capacity` slots was modified. -/
def modifiedOutside (capacity : Nat) (before after : LightDataArray) : Prop :=
  ∃ i, capacity ≤ i ∧ after i ≠ before i

/-- The calls by which `UpdateAndRender` advances and draws a frame: frame statistics,
camera update, scene update, `PreRender` and `Render`. -/
def isFrameWork : Call → Bool
  | Call.CalcFrameStats => true
  | Call.CameraUpdate => true
  | Call.SceneManagerUpdate => true
  | Call.PreRender => true
  | Call.Render => true
  | _ => false

/-- The call is `InitializeGBuffer`. -/
def isInitializeGBuffer : Call → Bool
  | Call.InitializeGBuffer => true
  | _ => false

/-- The call is `ClearGBuffer`. -/
def isClearGBuffer : Call → Bool
  | Call.ClearGBuffer => true
  | _ => false

/-- `n` consecutive calls of `ToggleRenderingPath`, with the calls they make. -/
def toggleRenderingPathTimes : Nat → Engine → Engine × List Call
  | 0, e => (e, [])
  | n + 1, e =>
      let r := ToggleRenderingPath e
      let rest := toggleRenderingPathTimes n r.1
      (rest.1, r.2 ++ rest.2)

/-- The engine after a sequence of `HandleInput` calls, one per input of the list. -/
def handleInputs (e : Engine) (inps : List Input) : Engine :=
  inps.foldl (fun s inp => (HandleInput s inp).2.1) e

/-- The quad `q` moved to horizontal offset `x`. -/
def withOffsetX (q : DrawQuadOnScreenCommand) (x : ℚ) : DrawQuadOnScreenCommand :=
  { q with bottomLeftCornerScreenCoordinates := { q.bottomLeftCornerScreenCoordinates with x := x } }

/-- The sum of the widths of the first `i` tiles plus `i` paddings. -/
def tileOffset (paddingPx : ℚ) (cmds : List DrawQuadOnScreenCommand) (i : Nat) : ℚ :=
  ((cmds.take i).map (fun t => t.dimensionsInPixels.x)).sum + i * paddingPx

/-- The layout loop run for the indices `1 .. k` only. -/
def layoutQuadsUpTo (paddingPx : ℚ) (cmds : List DrawQuadOnScreenCommand) (k : Nat) :
    List DrawQuadOnScreenCommand :=
  (List.range' 1 k).foldl (offsetQuad paddingPx) cmds

/-- A tile of the given width at the origin. -/
def tileOfWidth (w : ℚ) : DrawQuadOnScreenCommand := ⟨⟨w, 128⟩, ⟨0, 0⟩, 0, false⟩

/-- The strip of the worked example: widths 227, 227, 128, 227. -/
def exampleStrip : List DrawQuadOnScreenCommand :=
  [tileOfWidth 227, tileOfWidth 227, tileOfWidth 128, tileOfWidth 227]

/-- The passes of a frame that the call trace lets one tell apart. -/
inductive Pass
  | shadow
  | geometry
  | ambientOcclusion
  | lighting
  | lightMarkers
  | tbn
  | postProcess
  | debugOverlay
  deriving DecidableEq, Repr

/-- The pass a call belongs to, for the calls that belong to one pass only: the event
labels, the pass entry points, the draw of the scene geometry (counted with the geometry
pass), the light constant buffers, the per-light marker draws, the per-object tangent
frame draws and the debug quads.  Calls shared by several passes (shader and state
setting, binds, queries) belong to none. -/
def passOf : Call → Option Pass
  | Call.BeginEvent label =>
      if label = "Shadow Pass" then some Pass.shadow
      else if label = "Geometry Pass" then some Pass.geometry
      else if label = "Ambient Occlusion Pass" then some Pass.ambientOcclusion
      else if label = "Lighting Pass" then some Pass.lighting
      else if label = "Render Lights Pass" then some Pass.lightMarkers
      else if label = "Draw TBN Vectors" then some Pass.tbn
      else if label = "Debug Pass" then some Pass.debugOverlay
      else none
  | Call.RenderShadowMaps _ _ => some Pass.shadow
  | Call.SetGeometryRenderingStates => some Pass.geometry
  | Call.SceneManagerRender => some Pass.geometry
  | Call.RenderOcclusion _ _ => some Pass.ambientOcclusion
  | Call.GaussianBlurPass => some Pass.ambientOcclusion
  | Call.RenderLightingPass _ _ _ => some Pass.lighting
  | Call.SetConstantStruct _ _ => some Pass.lighting
  | Call.SetBufferObj _ => some Pass.lightMarkers
  | Call.DrawIndexed => some Pass.lightMarkers
  | Call.GameObjectRender _ => some Pass.tbn
  | Call.PostProcessRender => some Pass.postProcess
  | Call.DrawQuadOnScreen _ => some Pass.debugOverlay
  | _ => none

/-- The stage of `Render` a pass belongs to: shadow, mode branch, tangent frames,
post-process, debug overlay. -/
def stageRank : Pass → Nat
  | Pass.shadow => 1
  | Pass.geometry => 2
  | Pass.ambientOcclusion => 2
  | Pass.lighting => 2
  | Pass.lightMarkers => 2
  | Pass.tbn => 3
  | Pass.postProcess => 4
  | Pass.debugOverlay => 5

/-- Every call of pass `P` in the trace comes before every call of pass `Q`. -/
def Precedes (P Q : Pass) (tr : List Call) : Prop :=
  ∀ (i j : Nat) (a b : Call), tr[i]? = some a → tr[j]? = some b →
    passOf a = some P → passOf b = some Q → i < j

/-- No call of a later stage comes before a call of an earlier stage. -/
def StageOrdered (tr : List Call) : Prop :=
  tr.Pairwise (fun a b => ∀ pa pb, passOf a = some pa → passOf b = some pb →
    stageRank pa ≤ stageRank pb)

/-- The calls of the list that belong to a pass belong to stages `lo .. hi`. -/
def StagesWithin (lo hi : Nat) (l : List Call) : Prop :=
  ∀ c ∈ l, ∀ P, passOf c = some P → lo ≤ stageRank P ∧ stageRank P ≤ hi

/-- The call runs the shadow pass (`RenderShadowMaps`). -/
def invokesShadowPass : Call → Bool
  | Call.RenderShadowMaps _ _ => true
  | _ => false

/-- The call runs the post-process pass (`PostProcessPass::Render`). -/
def invokesPostProcess : Call → Bool
  | Call.PostProcessRender => true
  | _ => false

/-- The call sets up or runs a pass that works on the GBuffer: geometry-pass state
setup, deferred lighting pass, SSAO occlusion and blur, and their event labels. -/
def isGBufferPass : Call → Bool
  | Call.SetGeometryRenderingStates => true
  | Call.RenderLightingPass _ _ _ => true
  | Call.RenderOcclusion _ _ => true
  | Call.GaussianBlurPass => true
  | Call.BeginEvent label =>
      decide (label = "Geometry Pass") || decide (label = "Ambient Occlusion Pass")
  | _ => false

/-- The render target whose texture the call asks the renderer for, if it is such a
query. -/
def renderTargetRead : Call → Option RenderTargetID
  | Call.GetRenderTargetTexture rt => some rt
  | _ => none

/-- The call reads one of the four render targets of the GBuffer. -/
def readsGBuffer (g : GBuffer) (c : Call) : Prop :=
  renderTargetRead c = some g._normalRT ∨ renderTargetRead c = some g._diffuseRoughnessRT
    ∨ renderTargetRead c = some g._specularMetallicRT
    ∨ renderTargetRead c = some g._positionRT

/-- The calls of one `UpdateAndRender` without input on the engine that `Initialize`
leaves behind. -/
def firstFrame (e : Engine) (sc : FrameScene) : List Call :=
  (UpdateAndRender (Initialize e true).2 Input.idle sc).2.2

/-- No call of the list asks for the texture of a render target, and none sets up or
runs a GBuffer pass. -/
def NoGBufferUse (l : List Call) : Prop :=
  ∀ c ∈ l, isGBufferPass c = false ∧ renderTargetRead c = none

/-- The call is one of the three shadow bindings of `SendLightData`: the constant
`lightSpaceMat`, the texture `texShadowMap` or the sampler `sShadowSampler`. -/
def isShadowBinding : Call → Bool
  | Call.SetConstant4x4f name _ => decide (name = "lightSpaceMat")
  | Call.SetTexture name _ => decide (name = "texShadowMap")
  | Call.SetSamplerState name _ => decide (name = "sShadowSampler")
  | _ => false

/-- What a call does to the depth-target binding, with `End` as the close of the frame. -/
inductive DepthEvent
  | bind
  | unbind
  | present
  deriving DecidableEq, Repr

/-- The depth-target event of a call, if it is `BindDepthTarget`, `UnbindDepthTarget`
or `End`. -/
def depthEvent : Call → Option DepthEvent
  | Call.BindDepthTarget _ => some DepthEvent.bind
  | Call.UnbindDepthTarget => some DepthEvent.unbind
  | Call.End => some DepthEvent.present
  | _ => none

/-- The depth-target events of a trace, in order. -/
def depthEvents (tr : List Call) : List DepthEvent := tr.filterMap depthEvent

/-- Matching pairs, starting with a depth target bound or not: a bind needs no depth
target bound, an unbind needs one bound, and none may be bound at `End` or when the
trace is over. -/
def pairedFrom : Bool → List DepthEvent → Bool
  | bound, [] => !bound
  | bound, DepthEvent.bind :: rest => !bound && pairedFrom true rest
  | bound, DepthEvent.unbind :: rest => bound && pairedFrom false rest
  | bound, DepthEvent.present :: rest => !bound && pairedFrom bound rest

/-- The binds and unbinds of the trace come in matching pairs: every bind is followed by
an unbind before the next bind and before `End`, and no unbind comes without a bind still
open. -/
def depthPaired (tr : List Call) : Bool := pairedFrom false (depthEvents tr)

/-- No unbind comes without an earlier bind that is still open; `open` counts the binds
not yet undone. -/
def unbindsMatchedFrom : Nat → List DepthEvent → Bool
  | _, [] => true
  | n, DepthEvent.bind :: rest => unbindsMatchedFrom (n + 1) rest
  | 0, DepthEvent.unbind :: _ => false
  | n + 1, DepthEvent.unbind :: rest => unbindsMatchedFrom n rest
  | n, DepthEvent.present :: rest => unbindsMatchedFrom n rest

/-- No call of the list is a depth-target event. -/
def NoDepthEvents (l : List Call) : Prop := ∀ c ∈ l, depthEvent c = none

/-! ## Sample inputs -/

/-- A light of the given kind whose signature is `n` and whose light-space matrix is the
scalar matrix `n`. -/
def sampleLight (t : ELightType) (n : Int) : Light :=
  { _type := t, _castsShadow := true, _renderMesh := n, worldTransform := 1,
    _color := ⟨1, 1, 1⟩, ShaderSignature := ⟨n⟩,
    GetLightSpaceMatrix := Matrix.diagonal (fun _ => (n : ℚ)) }

/-- A light aggregate with zeroed storage and stale counts. -/
def sampleLightData : SceneLightData :=
  { pointLights := fun _ => ⟨0⟩, spotLights := fun _ => ⟨0⟩, pointLightCount := 5,
    spotLightCount := 7, shadowCasterData := fun _ => ⟨0, 0, 0⟩ }

/-- A renderer whose target textures are numbered after their targets. -/
def sampleRenderer : Renderer :=
  { GetRenderTargetTexture := fun rt => rt + 100,
    GetDepthTargetTexture := fun dt => dt + 200,
    CULL_NONE := 0, DEPTH_STENCIL_W := 1 }

/-- An engine in forward mode, as left by the constructor and `Load`, before
`Initialize`. -/
def sampleEngine : Engine :=
  { mpRenderer := sampleRenderer,
    sEngineSettings := ⟨false, false, 1600, 900⟩,
    mUseDeferredRendering := false,
    mbIsAmbientOcclusionOn := false,
    mDebugRender := false,
    mSelectedShader := EShaders.FORWARD_BRDF,
    mbIsPaused := false,
    mActiveSkybox := ESkyboxPreset.SKYBOX_PRESET_COUNT,
    mWorldDepthTarget := 0,
    mNormalSampler := 3,
    mZPassObjects := [],
    mDeferredRenderingPasses := ⟨⟨false, 10, 11, 12, 13⟩, 2⟩,
    mSSAOPass := ⟨1, 1, 20, 21⟩,
    mShadowMapPass := ⟨30, 31, 1⟩,
    mPostProcessPass := ⟨40, ⟨true, 41⟩⟩,
    mSceneView := ⟨1, 1, 1, 1⟩,
    mSceneLightData := sampleLightData }

/-- The sample engine switched to deferred mode, with skybox preset 1 active. -/
def deferredSkyboxEngine : Engine :=
  { sampleEngine with
    mUseDeferredRendering := true
    mActiveSkybox := ESkyboxPreset.preset 1 }

/-- A camera with identity matrices. -/
def sampleCamera : Camera := ⟨1, 1, 1, ⟨0, 0, 0⟩⟩

/-- A frame scene holding the given lights and no objects. -/
def sceneWith (lights : List Light) : FrameScene :=
  { mLights := lights, mRoomSceneLights := lights, sceneObjects := [], camera := sampleCamera }

/-! ## Light gathering -/

theorem gatherLights_nil (d : SceneLightData) : gatherLights d [] = d := rfl

theorem gatherLights_cons (d : SceneLightData) (l : Light) (L : List Light) :
    gatherLights d (l :: L) = gatherLights (gatherLight d l) L := rfl

theorem gatherLight_count (d : SceneLightData) (l : Light) (b : Bucket) :
    (gatherLight d l).count b = d.count b + (if routedTo b l then 1 else 0) := by
  cases b <;> cases h : l._type <;>
    simp [gatherLight, SceneLightData.count, routedTo, bucketOf, h]

theorem gatherLight_shadowCasterData (d : SceneLightData) (l : Light) :
    (gatherLight d l).shadowCasterData = d.shadowCasterData := by
  cases h : l._type <;> simp [gatherLight, bucketOf, h]

theorem gatherLight_data (d : SceneLightData) (l : Light) (b : Bucket) (i : Nat) :
    (gatherLight d l).data b i =
      if routedTo b l = true ∧ i = d.count b then l.ShaderSignature else d.data b i := by
  cases b <;> cases h : l._type <;>
    simp [gatherLight, SceneLightData.count, SceneLightData.data, routedTo, bucketOf, h,
      Function.update_apply]

theorem gatherLights_count (L : List Light) (d : SceneLightData) (b : Bucket) :
    (gatherLights d L).count b = d.count b + L.countP (routedTo b) := by
  induction L generalizing d with
  | nil => simp [gatherLights_nil]
  | cons l L ih =>
      rw [gatherLights_cons, ih, gatherLight_count, List.countP_cons]
      omega

theorem gatherLights_shadowCasterData (L : List Light) (d : SceneLightData) :
    (gatherLights d L).shadowCasterData = d.shadowCasterData := by
  induction L generalizing d with
  | nil => rfl
  | cons l L ih => rw [gatherLights_cons, ih, gatherLight_shadowCasterData]

/-- Slots below the running count are never touched again by the loop. -/
theorem gatherLights_data_below (L : List Light) (d : SceneLightData) (b : Bucket) (i : Nat)
    (hi : i < d.count b) : (gatherLights d L).data b i = d.data b i := by
  induction L generalizing d with
  | nil => rfl
  | cons l L ih =>
      rw [gatherLights_cons, ih, gatherLight_data]
      · have : i ≠ d.count b := by omega
        simp [this]
      · rw [gatherLight_count]; omega

/-- The content of every slot after the gather loop: slot `d.count b + k` holds the
signature of the `k`-th light routed to `b`, other slots keep their content. -/
theorem gatherLights_data (L : List Light) (d : SceneLightData) (b : Bucket) (k : Nat)
    (hk : k < (L.filter (routedTo b)).length) :
    (gatherLights d L).data b (d.count b + k)
      = ((L.filter (routedTo b)).get ⟨k, hk⟩).ShaderSignature := by
  induction L generalizing d k with
  | nil => simp at hk
  | cons l L ih =>
      rw [gatherLights_cons]
      by_cases hr : routedTo b l = true
      · have hc : (gatherLight d l).count b = d.count b + 1 := by
          rw [gatherLight_count]; simp [hr]
        cases k with
        | zero =>
            rw [gatherLights_data_below _ _ _ _ (by rw [hc]; omega), gatherLight_data]
            simp [hr, List.filter_cons]
        | succ k =>
            have hk2 : k < (L.filter (routedTo b)).length := by
              simpa [List.filter_cons, hr] using hk
            have := ih (gatherLight d l) k hk2
            rw [hc] at this
            have e : d.count b + (k + 1) = d.count b + 1 + k := by omega
            rw [e, this]
            simp [List.filter_cons, hr]
      · have hc : (gatherLight d l).count b = d.count b := by
          rw [gatherLight_count]; simp [hr]
        have hk2 : k < (L.filter (routedTo b)).length := by
          simpa [List.filter_cons, hr] using hk
        have := ih (gatherLight d l) k hk2
        rw [hc] at this
        rw [this]
        simp [List.filter_cons, hr]

/-! ## PreRender: counts, bucket contents, shadow caster -/

theorem PreRenderLights_count (sm : ShadowMapPass) (L : List Light) (d : SceneLightData)
    (b : Bucket) : (PreRenderLights sm L d).count b = L.countP (routedTo b) := by
  have h : (gatherLights d.ResetCounts L).count b = L.countP (routedTo b) := by
    rw [gatherLights_count]
    cases b <;> simp [SceneLightData.count, SceneLightData.ResetCounts]
  unfold PreRenderLights
  simp only []
  split
  · split
    · cases b <;> simpa [SceneLightData.count] using h
    · exact h
  · exact h

theorem PreRenderLights_data (sm : ShadowMapPass) (L : List Light) (d : SceneLightData)
    (b : Bucket) : (PreRenderLights sm L d).data b = (gatherLights d.ResetCounts L).data b := by
  unfold PreRenderLights
  simp only []
  split
  · split
    · cases b <;> rfl
    · rfl
  · rfl

theorem countP_point_add_spot (L : List Light) :
    L.countP (routedTo Bucket.point) + L.countP (routedTo Bucket.spot) = L.length := by
  induction L with
  | nil => rfl
  | cons l L ih =>
      cases h : l._type <;> simp [List.countP_cons, routedTo, bucketOf, h] <;> omega

/-- C1: after `PreRender` the two counts are functions of the light list alone:
`pointLightCount` is the number of Point lights, `spotLightCount` the number of
non-Point (Spot or Directional) lights, their sum is the length of the list, and a second
`PreRender` on the same list gives the same counts again. -/
theorem PreRender_counts (e : Engine) (sc : FrameScene) :
    (PreRender e sc).mSceneLightData.pointLightCount
        = sc.mLights.countP (fun l => decide (l._type = ELightType.POINT))
      ∧ (PreRender e sc).mSceneLightData.spotLightCount
        = sc.mLights.countP (fun l => decide (l._type ≠ ELightType.POINT))
      ∧ (PreRender e sc).mSceneLightData.pointLightCount
          + (PreRender e sc).mSceneLightData.spotLightCount = sc.mLights.length
      ∧ (PreRender (PreRender e sc) sc).mSceneLightData.pointLightCount
          = (PreRender e sc).mSceneLightData.pointLightCount
      ∧ (PreRender (PreRender e sc) sc).mSceneLightData.spotLightCount
          = (PreRender e sc).mSceneLightData.spotLightCount := by
  have hp : ∀ (e : Engine), (PreRender e sc).mSceneLightData.pointLightCount
      = sc.mLights.countP (routedTo Bucket.point) := fun e =>
    PreRenderLights_count e.mShadowMapPass sc.mLights e.mSceneLightData Bucket.point
  have hs : ∀ (e : Engine), (PreRender e sc).mSceneLightData.spotLightCount
      = sc.mLights.countP (routedTo Bucket.spot) := fun e =>
    PreRenderLights_count e.mShadowMapPass sc.mLights e.mSceneLightData Bucket.spot
  have e1 : (routedTo Bucket.point) = (fun l => decide (l._type = ELightType.POINT)) := by
    funext l; cases h : l._type <;> simp [routedTo, bucketOf, h]
  have e2 : (routedTo Bucket.spot) = (fun l => decide (l._type ≠ ELightType.POINT)) := by
    funext l; cases h : l._type <;> simp [routedTo, bucketOf, h]
  refine ⟨?_, ?_, ?_, ?_, ?_⟩
  · rw [hp, e1]
  · rw [hs, e2]
  · rw [hp, hs]; exact countP_point_add_spot _
  · rw [hp, hp]
  · rw [hs, hs]

/-- The content of each bucket after `PreRender`: the count is the number of lights
routed to the bucket, slot `i` below that number holds the signature of the `i`-th such
light in list order, and every slot from that number on keeps its previous content.
No capacity enters: slots are written up to the count, whatever the array size. -/
theorem PreRender_bucket_contents (e : Engine) (sc : FrameScene) (b : Bucket) :
    (PreRender e sc).mSceneLightData.count b = (sc.mLights.filter (routedTo b)).length
      ∧ (∀ i (hi : i < (sc.mLights.filter (routedTo b)).length),
          (PreRender e sc).mSceneLightData.data b i
            = ((sc.mLights.filter (routedTo b)).get ⟨i, hi⟩).ShaderSignature)
      ∧ (∀ i, (sc.mLights.filter (routedTo b)).length ≤ i →
          (PreRender e sc).mSceneLightData.data b i = e.mSceneLightData.data b i) := by
  have hd := PreRenderLights_data e.mShadowMapPass sc.mLights e.mSceneLightData b
  have h0 : e.mSceneLightData.ResetCounts.count b = 0 := by
    cases b <;> rfl
  refine ⟨?_, ?_, ?_⟩
  · show (PreRenderLights _ _ _).count b = _
    rw [PreRenderLights_count, List.countP_eq_length_filter]
  · intro i hi
    show (PreRenderLights _ _ _).data b i = _
    rw [hd]
    have := gatherLights_data sc.mLights e.mSceneLightData.ResetCounts b i hi
    rw [h0, Nat.zero_add] at this
    exact this
  · intro i hi
    show (PreRenderLights _ _ _).data b i = _
    rw [hd]
    have key : ∀ (L : List Light) (d : SceneLightData),
        d.count b + (L.filter (routedTo b)).length ≤ i →
        (gatherLights d L).data b i = d.data b i := by
      intro L
      induction L with
      | nil => intro d _; rfl
      | cons l L ih =>
          intro d h
          rw [gatherLights_cons, ih, gatherLight_data]
          · by_cases hr : routedTo b l = true
            · have : i ≠ d.count b := by
                simp [List.filter_cons, hr] at h; omega
              simp [this]
            · simp [hr]
          · rw [gatherLight_count]
            by_cases hr : routedTo b l = true
            · simp [List.filter_cons, hr] at h ⊢; omega
            · simp [List.filter_cons, hr] at h ⊢; omega
    rw [key _ _ (by rw [h0]; omega)]
    cases b <;> rfl

/-- C2: with three Point lights and a point bucket of capacity 2, `PreRender` sets the
count to 3 and writes the third signature into slot 2, a slot outside the array: storage
beyond the first 2 slots is modified. -/
theorem PreRender_stores_past_capacity :
    (PreRender sampleEngine (sceneWith
        [sampleLight ELightType.POINT 11, sampleLight ELightType.POINT 12,
          sampleLight ELightType.POINT 13])).mSceneLightData.pointLightCount = 3
      ∧ (PreRender sampleEngine (sceneWith
        [sampleLight ELightType.POINT 11, sampleLight ELightType.POINT 12,
          sampleLight ELightType.POINT 13])).mSceneLightData.pointLights 2
          = (sampleLight ELightType.POINT 13).ShaderSignature
      ∧ modifiedOutside 2 sampleEngine.mSceneLightData.pointLights
          (PreRender sampleEngine (sceneWith
            [sampleLight ELightType.POINT 11, sampleLight ELightType.POINT 12,
              sampleLight ELightType.POINT 13])).mSceneLightData.pointLights := by
  refine ⟨by decide, by decide, 2, Nat.le_refl 2, by decide⟩

/-- When the first light of the list is a Spot light, slot 0 of the shadow caster table
holds the handles of the shadow pass and that light's light-space matrix. -/
theorem PreRender_shadowCaster_head_spot (e : Engine) (sc : FrameScene) (l0 : Light)
    (rest : List Light) (hL : sc.mLights = l0 :: rest) (h0 : l0._type = ELightType.SPOT) :
    (PreRender e sc).mSceneLightData.shadowCasterData 0
      = ⟨e.mShadowMapPass._shadowMap, e.mShadowMapPass._shadowSampler,
          l0.GetLightSpaceMatrix⟩ := by
  have hc : (gatherLights e.mSceneLightData.ResetCounts sc.mLights).spotLightCount
      = sc.mLights.countP (routedTo Bucket.spot) := by
    have := gatherLights_count sc.mLights e.mSceneLightData.ResetCounts Bucket.spot
    simpa [SceneLightData.count, SceneLightData.ResetCounts] using this
  have hpos : 0 < (gatherLights e.mSceneLightData.ResetCounts sc.mLights).spotLightCount := by
    rw [hc, hL, List.countP_cons]
    simp [routedTo, bucketOf, h0]
  show (PreRenderLights _ _ _).shadowCasterData 0 = _
  unfold PreRenderLights
  simp only [hpos, if_true]
  simp [hL]

/-- C3: for the list [Point light 7, Spot light 9], which contains a Spot light,
`PreRender` puts into slot 0 of the shadow caster table the handles of the shadow pass
and the light-space matrix of the Point light at index 0, not that of the Spot light. -/
theorem PreRender_shadowCaster_takes_first_light :
    ((PreRender sampleEngine (sceneWith
        [sampleLight ELightType.POINT 7, sampleLight ELightType.SPOT 9])).mSceneLightData.shadowCasterData
          0).lightSpaceMatrix
        = (sampleLight ELightType.POINT 7).GetLightSpaceMatrix
      ∧ ((PreRender sampleEngine (sceneWith
        [sampleLight ELightType.POINT 7, sampleLight ELightType.SPOT 9])).mSceneLightData.shadowCasterData
          0).lightSpaceMatrix
        ≠ (sampleLight ELightType.SPOT 9).GetLightSpaceMatrix
      ∧ ((PreRender sampleEngine (sceneWith
        [sampleLight ELightType.POINT 7, sampleLight ELightType.SPOT 9])).mSceneLightData.shadowCasterData
          0).shadowMap = sampleEngine.mShadowMapPass._shadowMap
      ∧ ((PreRender sampleEngine (sceneWith
        [sampleLight ELightType.POINT 7, sampleLight ELightType.SPOT 9])).mSceneLightData.shadowCasterData
          0).shadowSampler = sampleEngine.mShadowMapPass._shadowSampler := by
  have hval : ((PreRender sampleEngine (sceneWith
        [sampleLight ELightType.POINT 7, sampleLight ELightType.SPOT 9])).mSceneLightData.shadowCasterData
          0) = ⟨30, 31, (sampleLight ELightType.POINT 7).GetLightSpaceMatrix⟩ := by
    simp [PreRender, PreRenderLights, gatherLights, gatherLight, bucketOf, sceneWith,
      sampleLight, sampleEngine, sampleLightData, SceneLightData.ResetCounts]
  rw [hval]
  refine ⟨rfl, ?_, rfl, rfl⟩
  intro h
  have h00 := congrFun (congrFun h 0) 0
  simp [sampleLight, Matrix.diagonal] at h00

/-! ## UpdateAndRender: exit flag and pause -/

theorem mem_of_mem_ite_nil {b : Prop} [Decidable b] {l : List Call} {c : Call}
    (h : c ∈ if b then l else []) : c ∈ l := by
  split at h
  · exact h
  · simp at h

theorem ToggleRenderingPath_calls_not_frameWork (e : Engine) :
    ∀ c ∈ (ToggleRenderingPath e).2, isFrameWork c = false := by
  intro c hc
  simp only [ToggleRenderingPath, List.mem_append] at hc
  rcases hc with (hc | hc) | hc
  · have h := mem_of_mem_ite_nil hc
    simp at h; subst h; rfl
  · simp at hc; subst hc; rfl
  · have h := mem_of_mem_ite_nil hc
    simp at h; subst h; rfl

theorem ToggleLightingModel_calls_not_frameWork (e : Engine) :
    ∀ c ∈ (ToggleLightingModel e).2, isFrameWork c = false := by
  intro c hc
  unfold ToggleLightingModel at hc
  split at hc
  · simp at hc
  · simp at hc; subst hc; rfl

theorem adjustSSAO_calls_not_frameWork (e : Engine) (inp : Input) :
    ∀ c ∈ (adjustSSAO e inp).2, isFrameWork c = false := by
  intro c hc
  unfold adjustSSAO at hc
  split at hc
  · split at hc
    · simp only [List.mem_append] at hc
      rcases hc with hc | hc <;> split at hc <;> simp at hc <;> subst hc <;> rfl
    · simp only [List.mem_append] at hc
      rcases hc with hc | hc <;> split at hc <;> simp at hc <;> subst hc <;> rfl
  · simp at hc

theorem handleKeys_calls_not_frameWork (e : Engine) (inp : Input) :
    ∀ c ∈ (handleKeys e inp).2, isFrameWork c = false := by
  intro c hc
  simp only [handleKeys, List.mem_append] at hc
  rcases hc with (((hc | hc) | hc) | hc) | hc
  · split at hc
    · exact ToggleLightingModel_calls_not_frameWork _ c hc
    · simp at hc
  · split at hc
    · exact ToggleRenderingPath_calls_not_frameWork _ c hc
    · simp at hc
  · split at hc
    · simp at hc; subst hc; rfl
    · simp at hc
  · split at hc
    · simp at hc; subst hc; rfl
    · simp at hc
  · split at hc
    · simp at hc; subst hc; rfl
    · simp at hc

theorem HandleInput_calls_not_frameWork (e : Engine) (inp : Input) :
    ∀ c ∈ (HandleInput e inp).2.2, isFrameWork c = false := by
  intro c hc
  unfold HandleInput at hc
  split at hc
  · simp at hc
  · simp only [List.mem_append] at hc
    rcases hc with hc | hc
    · exact handleKeys_calls_not_frameWork _ _ c hc
    · exact adjustSSAO_calls_not_frameWork _ _ c hc

theorem HandleInput_flag (e : Engine) (inp : Input) :
    (HandleInput e inp).1 = !inp.escapeDown := by
  unfold HandleInput
  split <;> simp_all

theorem selectDebugShader_paused (e : Engine) (inp : Input) :
    (selectDebugShader e inp).mbIsPaused = e.mbIsPaused := by
  unfold selectDebugShader
  simp only []
  repeat' split
  all_goals rfl

theorem ToggleLightingModel_paused (e : Engine) :
    (ToggleLightingModel e).1.mbIsPaused = e.mbIsPaused := by
  unfold ToggleLightingModel
  split <;> rfl

theorem ToggleRenderingPath_paused (e : Engine) :
    (ToggleRenderingPath e).1.mbIsPaused = e.mbIsPaused := by
  simp only [ToggleRenderingPath]
  repeat' split
  all_goals rfl

theorem handleKeys_paused (e : Engine) (inp : Input) :
    (handleKeys e inp).1.mbIsPaused = e.mbIsPaused := by
  simp only [handleKeys]
  have h1 := selectDebugShader_paused e inp
  have h6 : (if inp.f6Triggered then ToggleLightingModel (selectDebugShader e inp)
      else (selectDebugShader e inp, [])).1.mbIsPaused = e.mbIsPaused := by
    split
    · rw [ToggleLightingModel_paused, h1]
    · exact h1
  generalize (if inp.f6Triggered then ToggleLightingModel (selectDebugShader e inp)
      else (selectDebugShader e inp, [])) = r6 at h6 ⊢
  have h7 : (if inp.f7Triggered then { r6.1 with mDebugRender := !r6.1.mDebugRender }
      else r6.1).mbIsPaused = e.mbIsPaused := by
    split <;> exact h6
  generalize (if inp.f7Triggered then { r6.1 with mDebugRender := !r6.1.mDebugRender }
      else r6.1) = e7 at h7 ⊢
  have h8 : (if inp.f8Triggered then ToggleRenderingPath e7 else (e7, [])).1.mbIsPaused
      = e.mbIsPaused := by
    split
    · rw [ToggleRenderingPath_paused, h7]
    · exact h7
  generalize (if inp.f8Triggered then ToggleRenderingPath e7 else (e7, [])) = r8 at h8 ⊢
  repeat' split
  all_goals exact h8

theorem adjustSSAO_paused (e : Engine) (inp : Input) :
    (adjustSSAO e inp).1.mbIsPaused = e.mbIsPaused := by
  unfold adjustSSAO
  repeat' split
  all_goals rfl

theorem HandleInput_paused (e : Engine) (inp : Input) :
    (HandleInput e inp).2.1.mbIsPaused
      = if inp.escapeDown then e.mbIsPaused
        else if inp.backspaceTriggered then !e.mbIsPaused else e.mbIsPaused := by
  unfold HandleInput
  split
  · rfl
  · simp only [adjustSSAO_paused, handleKeys_paused]
    split <;> rfl

/-- C4 (as stated, refuted): a paused engine with Escape up and no other input gets
`false` from `UpdateAndRender`, not `true`. -/
theorem UpdateAndRender_returns_false_without_exit :
    Input.idle.escapeDown = false
      ∧ (Pause sampleEngine).mbIsPaused = true
      ∧ (UpdateAndRender (Pause sampleEngine) Input.idle (sceneWith [])).1 = false := by
  refine ⟨rfl, rfl, ?_⟩
  simp [UpdateAndRender, HandleInput_flag, Input.idle]

/-- C4 (amended): `UpdateAndRender` returns the exit flag `bExitApp`, which equals
"Escape is down" (so `false` when no exit is requested); and whenever the engine is
paused once `HandleInput` has run, which is the case when it was paused before and
Escape is down or Backspace is not triggered, the call consists of the timer tick, the
calls of `HandleInput` and the input update only: no frame statistics, camera update,
scene update, `PreRender` or `Render`, and the engine is left as `HandleInput` left it. -/
theorem UpdateAndRender_exit_flag_and_pause (e : Engine) (inp : Input) (sc : FrameScene) :
    (UpdateAndRender e inp sc).1 = inp.escapeDown
      ∧ ((HandleInput e inp).2.1.mbIsPaused = true →
          (UpdateAndRender e inp sc).2.2
              = [Call.TimerTick] ++ (HandleInput e inp).2.2 ++ [Call.InputUpdate]
            ∧ (UpdateAndRender e inp sc).2.1 = (HandleInput e inp).2.1
            ∧ ∀ c ∈ (UpdateAndRender e inp sc).2.2, isFrameWork c = false)
      ∧ (e.mbIsPaused = true → (inp.escapeDown = true ∨ inp.backspaceTriggered = false) →
          (HandleInput e inp).2.1.mbIsPaused = true) := by
  refine ⟨?_, ?_, ?_⟩
  · simp [UpdateAndRender, HandleInput_flag]
  · intro hp
    have htr : (UpdateAndRender e inp sc).2.2
        = [Call.TimerTick] ++ (HandleInput e inp).2.2 ++ [Call.InputUpdate] := by
      simp [UpdateAndRender, updateAndDraw, hp]
    refine ⟨htr, ?_, ?_⟩
    · simp [UpdateAndRender, updateAndDraw, hp]
    · intro c hc
      rw [htr] at hc
      simp only [List.mem_append, List.mem_singleton] at hc
      rcases hc with (hc | hc) | hc
      · subst hc; rfl
      · exact HandleInput_calls_not_frameWork e inp c hc
      · subst hc; rfl
  · intro hp h
    rw [HandleInput_paused]
    rcases h with h | h
    · simp [h, hp]
    · simp [h, hp]

/-- C4 (amended), at a paused engine without input. -/
theorem UpdateAndRender_exit_flag_and_pause_witness :
    (UpdateAndRender (Pause sampleEngine) Input.idle (sceneWith [])).1 = Input.idle.escapeDown
      ∧ (UpdateAndRender (Pause sampleEngine) Input.idle (sceneWith [])).2.2
          = [Call.TimerTick] ++ (HandleInput (Pause sampleEngine) Input.idle).2.2
              ++ [Call.InputUpdate] :=
  ⟨(UpdateAndRender_exit_flag_and_pause (Pause sampleEngine) Input.idle (sceneWith [])).1,
    ((UpdateAndRender_exit_flag_and_pause (Pause sampleEngine) Input.idle (sceneWith [])).2.1
      (by simp [HandleInput_paused, Input.idle, Pause])).1⟩

/-! ## ToggleRenderingPath: GBuffer lifecycle -/

theorem ToggleRenderingPath_state (e : Engine) :
    (ToggleRenderingPath e).1.mUseDeferredRendering = !e.mUseDeferredRendering
      ∧ (ToggleRenderingPath e).1.mDeferredRenderingPasses._GBuffer.bInitialized
          = (e.mDeferredRenderingPasses._GBuffer.bInitialized || !e.mUseDeferredRendering) := by
  cases hd : e.mUseDeferredRendering <;>
    cases hi : e.mDeferredRenderingPasses._GBuffer.bInitialized <;>
    simp [ToggleRenderingPath, hd, hi, DeferredRenderingPasses.InitializeGBuffer,
      DeferredRenderingPasses.ClearGBuffer]

theorem ToggleRenderingPath_calls (e : Engine) :
    (ToggleRenderingPath e).2.countP isInitializeGBuffer
        = (if (!e.mUseDeferredRendering && !e.mDeferredRenderingPasses._GBuffer.bInitialized)
            then 1 else 0)
      ∧ (ToggleRenderingPath e).2.countP isClearGBuffer
        = (if e.mUseDeferredRendering then 1 else 0) := by
  cases hd : e.mUseDeferredRendering <;>
    cases hi : e.mDeferredRenderingPasses._GBuffer.bInitialized <;>
    simp [ToggleRenderingPath, hd, hi, DeferredRenderingPasses.InitializeGBuffer,
      DeferredRenderingPasses.ClearGBuffer, isInitializeGBuffer, isClearGBuffer,
      List.countP_cons]

theorem toggleRenderingPathTimes_initialized (n : Nat) (e : Engine)
    (h : e.mDeferredRenderingPasses._GBuffer.bInitialized = true) :
    (toggleRenderingPathTimes n e).1.mDeferredRenderingPasses._GBuffer.bInitialized = true
      ∧ (toggleRenderingPathTimes n e).2.countP isInitializeGBuffer = 0 := by
  induction n generalizing e with
  | zero => exact ⟨h, rfl⟩
  | succ n ih =>
      have h1 : (ToggleRenderingPath e).1.mDeferredRenderingPasses._GBuffer.bInitialized
          = true := by
        rw [(ToggleRenderingPath_state e).2, h]; rfl
      have hc := (ToggleRenderingPath_calls e).1
      simp only [h, Bool.not_true, Bool.and_false] at hc
      refine ⟨(ih _ h1).1, ?_⟩
      simp only [toggleRenderingPathTimes, List.countP_append]
      rw [hc, (ih _ h1).2]
      rfl

theorem toggleRenderingPathTimes_count (n : Nat) (e : Engine) :
    (toggleRenderingPathTimes n e).2.countP isInitializeGBuffer
      = if e.mDeferredRenderingPasses._GBuffer.bInitialized then 0
        else if e.mUseDeferredRendering then (if 2 ≤ n then 1 else 0)
        else (if 1 ≤ n then 1 else 0) := by
  induction n generalizing e with
  | zero => simp [toggleRenderingPathTimes]
  | succ n ih =>
      have hs := ToggleRenderingPath_state e
      have hc := (ToggleRenderingPath_calls e).1
      simp only [toggleRenderingPathTimes, List.countP_append]
      rw [ih, hc, hs.1, hs.2]
      cases hd : e.mUseDeferredRendering <;>
        cases hi : e.mDeferredRenderingPasses._GBuffer.bInitialized <;> simp

/-- C5: a call of `ToggleRenderingPath` invokes `InitializeGBuffer` exactly when it
enters deferred mode with `bInitialized` false, and `ClearGBuffer` exactly when it leaves
deferred mode; `bInitialized` once true stays true over any number of toggles, during
which `InitializeGBuffer` is not invoked; over any `n` toggles from any state
`InitializeGBuffer` is invoked at most once, and exactly once when the GBuffer starts
uninitialized and some toggle enters deferred mode (so forward, deferred, forward,
deferred initializes once). -/
theorem ToggleRenderingPath_gbuffer_lifecycle (e : Engine) (n : Nat) :
    (ToggleRenderingPath e).1.mUseDeferredRendering = !e.mUseDeferredRendering
      ∧ (ToggleRenderingPath e).2.countP isInitializeGBuffer
          = (if (!e.mUseDeferredRendering && !e.mDeferredRenderingPasses._GBuffer.bInitialized)
              then 1 else 0)
      ∧ (ToggleRenderingPath e).2.countP isClearGBuffer
          = (if e.mUseDeferredRendering then 1 else 0)
      ∧ (e.mUseDeferredRendering = false →
          (ToggleRenderingPath e).1.mDeferredRenderingPasses._GBuffer.bInitialized = true)
      ∧ (e.mDeferredRenderingPasses._GBuffer.bInitialized = true →
          (toggleRenderingPathTimes n e).1.mDeferredRenderingPasses._GBuffer.bInitialized = true
            ∧ (toggleRenderingPathTimes n e).2.countP isInitializeGBuffer = 0)
      ∧ (toggleRenderingPathTimes n e).2.countP isInitializeGBuffer ≤ 1
      ∧ (toggleRenderingPathTimes n e).2.countP isInitializeGBuffer
          = (if e.mDeferredRenderingPasses._GBuffer.bInitialized then 0
             else if e.mUseDeferredRendering then (if 2 ≤ n then 1 else 0)
             else (if 1 ≤ n then 1 else 0)) := by
  refine ⟨(ToggleRenderingPath_state e).1, (ToggleRenderingPath_calls e).1,
    (ToggleRenderingPath_calls e).2, ?_, toggleRenderingPathTimes_initialized n e, ?_,
    toggleRenderingPathTimes_count n e⟩
  · intro hd
    rw [(ToggleRenderingPath_state e).2, hd]
    simp
  · rw [toggleRenderingPathTimes_count]
    repeat' split
    all_goals omega

/-- C5, at an uninitialized forward engine toggled three times (deferred, forward,
deferred): one `InitializeGBuffer`. -/
theorem ToggleRenderingPath_gbuffer_lifecycle_witness :
    (toggleRenderingPathTimes 3 sampleEngine).2.countP isInitializeGBuffer = 1
      ∧ (toggleRenderingPathTimes 3 sampleEngine).1.mUseDeferredRendering = true := by
  refine ⟨?_, by decide⟩
  rw [(ToggleRenderingPath_gbuffer_lifecycle sampleEngine 3).2.2.2.2.2.2]
  decide

/-! ## ToggleLightingModel -/

/-- C6: in deferred mode `ToggleLightingModel` leaves the engine state unchanged; in
forward mode it changes nothing but the selected shader, sends Phong to BRDF and BRDF to
Phong, and two consecutive calls starting from Phong or BRDF restore the state. -/
theorem ToggleLightingModel_forward_only (e : Engine) :
    (e.mUseDeferredRendering = true → (ToggleLightingModel e).1 = e)
      ∧ (e.mUseDeferredRendering = false →
          (ToggleLightingModel e).1
              = { e with mSelectedShader := (ToggleLightingModel e).1.mSelectedShader }
            ∧ (e.mSelectedShader = EShaders.FORWARD_PHONG →
                (ToggleLightingModel e).1.mSelectedShader = EShaders.FORWARD_BRDF)
            ∧ (e.mSelectedShader = EShaders.FORWARD_BRDF →
                (ToggleLightingModel e).1.mSelectedShader = EShaders.FORWARD_PHONG)
            ∧ (e.mSelectedShader = EShaders.FORWARD_PHONG
                  ∨ e.mSelectedShader = EShaders.FORWARD_BRDF →
                (ToggleLightingModel (ToggleLightingModel e).1).1 = e)) := by
  refine ⟨?_, ?_⟩
  · intro hd
    simp [ToggleLightingModel, hd]
  · intro hd
    refine ⟨?_, ?_, ?_, ?_⟩
    · simp [ToggleLightingModel, hd]
    · intro hs
      simp [ToggleLightingModel, hd, hs]
    · intro hs
      simp [ToggleLightingModel, hd, hs]
    · intro hs
      cases e
      simp only at hd hs
      rcases hs with hs | hs <;> subst hd <;> subst hs <;> rfl

/-- C6, at a forward engine with BRDF selected: one call selects Phong, two calls
restore the engine. -/
theorem ToggleLightingModel_forward_only_witness :
    (ToggleLightingModel sampleEngine).1.mSelectedShader = EShaders.FORWARD_PHONG
      ∧ (ToggleLightingModel (ToggleLightingModel sampleEngine).1).1 = sampleEngine :=
  ⟨((ToggleLightingModel_forward_only sampleEngine).2 rfl).2.2.1 rfl,
    ((ToggleLightingModel_forward_only sampleEngine).2 rfl).2.2.2 (Or.inr rfl)⟩

/-! ## SSAO parameters -/

theorem scrollDownClamp_ge_one (v step : ℚ) : 1 ≤ scrollDownClamp v step := by
  unfold scrollDownClamp
  simp only []
  split
  · exact le_refl 1
  · rename_i h
    have h1 : (1001 : ℚ) / 1000 ≤ v - step := not_lt.mp h
    have h2 : (1 : ℚ) ≤ 1001 / 1000 := by norm_num
    exact le_trans h2 h1

theorem selectDebugShader_ssao (e : Engine) (inp : Input) :
    (selectDebugShader e inp).mSSAOPass = e.mSSAOPass := by
  unfold selectDebugShader
  simp only []
  repeat' split
  all_goals rfl

theorem ToggleLightingModel_ssao (e : Engine) :
    (ToggleLightingModel e).1.mSSAOPass = e.mSSAOPass := by
  unfold ToggleLightingModel
  split <;> rfl

theorem ToggleRenderingPath_ssao (e : Engine) :
    (ToggleRenderingPath e).1.mSSAOPass = e.mSSAOPass := by
  simp only [ToggleRenderingPath]
  repeat' split
  all_goals rfl

theorem handleKeys_ssao (e : Engine) (inp : Input) :
    (handleKeys e inp).1.mSSAOPass = e.mSSAOPass := by
  simp only [handleKeys]
  have h1 := selectDebugShader_ssao e inp
  have h6 : (if inp.f6Triggered then ToggleLightingModel (selectDebugShader e inp)
      else (selectDebugShader e inp, [])).1.mSSAOPass = e.mSSAOPass := by
    split
    · rw [ToggleLightingModel_ssao, h1]
    · exact h1
  generalize (if inp.f6Triggered then ToggleLightingModel (selectDebugShader e inp)
      else (selectDebugShader e inp, [])) = r6 at h6 ⊢
  have h7 : (if inp.f7Triggered then { r6.1 with mDebugRender := !r6.1.mDebugRender }
      else r6.1).mSSAOPass = e.mSSAOPass := by
    split <;> exact h6
  generalize (if inp.f7Triggered then { r6.1 with mDebugRender := !r6.1.mDebugRender }
      else r6.1) = e7 at h7 ⊢
  have h8 : (if inp.f8Triggered then ToggleRenderingPath e7 else (e7, [])).1.mSSAOPass
      = e.mSSAOPass := by
    split
    · rw [ToggleRenderingPath_ssao, h7]
    · exact h7
  generalize (if inp.f8Triggered then ToggleRenderingPath e7 else (e7, [])) = r8 at h8 ⊢
  repeat' split
  all_goals exact h8

theorem handleKeys_ambientOcclusion (e : Engine) (inp : Input)
    (h : inp.semicolonTriggered = false) :
    (handleKeys e inp).1.mbIsAmbientOcclusionOn = e.mbIsAmbientOcclusionOn := by
  simp only [handleKeys, h]
  have h1 : (selectDebugShader e inp).mbIsAmbientOcclusionOn = e.mbIsAmbientOcclusionOn := by
    unfold selectDebugShader
    simp only []
    repeat' split
    all_goals rfl
  have h6 : (if inp.f6Triggered then ToggleLightingModel (selectDebugShader e inp)
      else (selectDebugShader e inp, [])).1.mbIsAmbientOcclusionOn
        = e.mbIsAmbientOcclusionOn := by
    split
    · rw [← h1]; unfold ToggleLightingModel; split <;> rfl
    · exact h1
  generalize (if inp.f6Triggered then ToggleLightingModel (selectDebugShader e inp)
      else (selectDebugShader e inp, [])) = r6 at h6 ⊢
  have h7 : (if inp.f7Triggered then { r6.1 with mDebugRender := !r6.1.mDebugRender }
      else r6.1).mbIsAmbientOcclusionOn = e.mbIsAmbientOcclusionOn := by
    split <;> exact h6
  generalize (if inp.f7Triggered then { r6.1 with mDebugRender := !r6.1.mDebugRender }
      else r6.1) = e7 at h7 ⊢
  have h8 : (if inp.f8Triggered then ToggleRenderingPath e7
      else (e7, [])).1.mbIsAmbientOcclusionOn = e.mbIsAmbientOcclusionOn := by
    split
    · rw [← h7]; simp only [ToggleRenderingPath]; repeat' split
      all_goals rfl
    · exact h7
  generalize (if inp.f8Triggered then ToggleRenderingPath e7 else (e7, [])) = r8 at h8 ⊢
  repeat' split
  all_goals first | exact h8 | simp_all

/-- The effect of the SSAO block on the two parameters. -/
theorem adjustSSAO_effect (e : Engine) (inp : Input)
    (hi : 1 ≤ e.mSSAOPass.intensity) (hr : 1 ≤ e.mSSAOPass.radius) :
    1 ≤ (adjustSSAO e inp).1.mSSAOPass.intensity
      ∧ 1 ≤ (adjustSSAO e inp).1.mSSAOPass.radius
      ∧ (inp.shiftDown = true →
          (adjustSSAO e inp).1.mSSAOPass.radius = e.mSSAOPass.radius)
      ∧ (inp.shiftDown = false →
          (adjustSSAO e inp).1.mSSAOPass.intensity = e.mSSAOPass.intensity)
      ∧ (e.mbIsAmbientOcclusionOn = false →
          (adjustSSAO e inp).1.mSSAOPass = e.mSSAOPass)
      ∧ (adjustSSAO e inp).1.mbIsAmbientOcclusionOn = e.mbIsAmbientOcclusionOn := by
  have hup : ∀ (v step : ℚ), 1 ≤ v → 0 ≤ step → 1 ≤ v + step := by
    intro v step h1 h2; linarith
  cases ha : e.mbIsAmbientOcclusionOn <;> cases hs : inp.shiftDown <;>
    cases hu : inp.scrollUp <;> cases hd : inp.scrollDown <;>
    simp [adjustSSAO, ha, hs, hu, hd, hi, hr, scrollDownClamp_ge_one] <;>
    first
      | exact hup _ _ hi (by norm_num)
      | exact hup _ _ hr (by norm_num)

theorem HandleInput_ssao_step (e : Engine) (inp : Input)
    (hi : 1 ≤ e.mSSAOPass.intensity) (hr : 1 ≤ e.mSSAOPass.radius) :
    1 ≤ (HandleInput e inp).2.1.mSSAOPass.intensity
      ∧ 1 ≤ (HandleInput e inp).2.1.mSSAOPass.radius
      ∧ (inp.shiftDown = true →
          (HandleInput e inp).2.1.mSSAOPass.radius = e.mSSAOPass.radius)
      ∧ (inp.shiftDown = false →
          (HandleInput e inp).2.1.mSSAOPass.intensity = e.mSSAOPass.intensity)
      ∧ ((HandleInput e inp).2.1.mbIsAmbientOcclusionOn = false →
          (HandleInput e inp).2.1.mSSAOPass = e.mSSAOPass)
      ∧ (e.mbIsAmbientOcclusionOn = false → inp.semicolonTriggered = false →
          (HandleInput e inp).2.1.mSSAOPass = e.mSSAOPass) := by
  unfold HandleInput
  split
  · exact ⟨hi, hr, fun _ => rfl, fun _ => rfl, fun _ => rfl, fun _ _ => rfl⟩
  · simp only []
    generalize hk : (if inp.backspaceTriggered then TogglePause e else e) = e1
    have hs1 : e1.mSSAOPass = e.mSSAOPass := by
      rw [← hk]; split <;> rfl
    have ha1 : e1.mbIsAmbientOcclusionOn = e.mbIsAmbientOcclusionOn := by
      rw [← hk]; split <;> rfl
    have hs2 : (handleKeys e1 inp).1.mSSAOPass = e.mSSAOPass := by
      rw [handleKeys_ssao, hs1]
    have hi2 : 1 ≤ (handleKeys e1 inp).1.mSSAOPass.intensity := by rw [hs2]; exact hi
    have hr2 : 1 ≤ (handleKeys e1 inp).1.mSSAOPass.radius := by rw [hs2]; exact hr
    obtain ⟨a1, a2, a3, a4, a5, a6⟩ := adjustSSAO_effect (handleKeys e1 inp).1 inp hi2 hr2
    refine ⟨a1, a2, ?_, ?_, ?_, ?_⟩
    · intro h; rw [a3 h, hs2]
    · intro h; rw [a4 h, hs2]
    · intro h
      rw [a6] at h
      rw [a5 h, hs2]
    · intro h hsemi
      have : (handleKeys e1 inp).1.mbIsAmbientOcclusionOn = false := by
        rw [handleKeys_ambientOcclusion _ _ hsemi, ha1, h]
      rw [a5 this, hs2]

/-- C9: from a state with SSAO intensity and radius at least 1, both stay at least 1
after every `HandleInput` of any sequence of inputs (steps 0.1 and 0.5 as exact
rationals); a call with Shift held leaves the radius as it was, a call without Shift
leaves the intensity as it was, and a call that ends with ambient occlusion off, in
particular one that starts with it off and does not toggle it, changes neither. -/
theorem HandleInput_ssao_floor (e : Engine) (inps : List Input) (inp : Input)
    (hi : 1 ≤ e.mSSAOPass.intensity) (hr : 1 ≤ e.mSSAOPass.radius) :
    1 ≤ (handleInputs e inps).mSSAOPass.intensity
      ∧ 1 ≤ (handleInputs e inps).mSSAOPass.radius
      ∧ (inp.shiftDown = true →
          (HandleInput e inp).2.1.mSSAOPass.radius = e.mSSAOPass.radius)
      ∧ (inp.shiftDown = false →
          (HandleInput e inp).2.1.mSSAOPass.intensity = e.mSSAOPass.intensity)
      ∧ ((HandleInput e inp).2.1.mbIsAmbientOcclusionOn = false →
          (HandleInput e inp).2.1.mSSAOPass = e.mSSAOPass)
      ∧ (e.mbIsAmbientOcclusionOn = false → inp.semicolonTriggered = false →
          (HandleInput e inp).2.1.mSSAOPass = e.mSSAOPass) := by
  have hseq : ∀ (l : List Input) (s : Engine), 1 ≤ s.mSSAOPass.intensity →
      1 ≤ s.mSSAOPass.radius →
      1 ≤ (handleInputs s l).mSSAOPass.intensity ∧ 1 ≤ (handleInputs s l).mSSAOPass.radius := by
    intro l
    induction l with
    | nil => intro s h1 h2; exact ⟨h1, h2⟩
    | cons a l ih =>
        intro s h1 h2
        have hstep := HandleInput_ssao_step s a h1 h2
        exact ih _ hstep.1 hstep.2.1
  have hone := HandleInput_ssao_step e inp hi hr
  exact ⟨(hseq inps e hi hr).1, (hseq inps e hi hr).2, hone.2.2⟩

/-- An engine with ambient occlusion on and both SSAO parameters at the floor. -/
theorem sampleEngine_ssao_on :
    ({ sampleEngine with mbIsAmbientOcclusionOn := true } : Engine).mSSAOPass.intensity = 1
      ∧ ({ sampleEngine with mbIsAmbientOcclusionOn := true } : Engine).mSSAOPass.radius = 1 :=
  ⟨rfl, rfl⟩

/-- C9, at an engine with ambient occlusion on and both parameters equal to 1, for
three scroll-down inputs (one with Shift) followed by a scroll-up. -/
theorem HandleInput_ssao_floor_witness :
    (1 : ℚ) ≤ ({ sampleEngine with mbIsAmbientOcclusionOn := true } : Engine).mSSAOPass.intensity
      ∧ (1 : ℚ) ≤ ({ sampleEngine with mbIsAmbientOcclusionOn := true } : Engine).mSSAOPass.radius
      ∧ 1 ≤ (handleInputs { sampleEngine with mbIsAmbientOcclusionOn := true }
              [{ Input.idle with scrollDown := true },
               { Input.idle with scrollDown := true, shiftDown := true },
               { Input.idle with scrollDown := true },
               { Input.idle with scrollUp := true }]).mSSAOPass.intensity
      ∧ 1 ≤ (handleInputs { sampleEngine with mbIsAmbientOcclusionOn := true }
              [{ Input.idle with scrollDown := true },
               { Input.idle with scrollDown := true, shiftDown := true },
               { Input.idle with scrollDown := true },
               { Input.idle with scrollUp := true }]).mSSAOPass.radius :=
  ⟨le_of_eq sampleEngine_ssao_on.1.symm, le_of_eq sampleEngine_ssao_on.2.symm,
    (HandleInput_ssao_floor { sampleEngine with mbIsAmbientOcclusionOn := true }
      [{ Input.idle with scrollDown := true },
       { Input.idle with scrollDown := true, shiftDown := true },
       { Input.idle with scrollDown := true },
       { Input.idle with scrollUp := true }] Input.idle
      (le_of_eq sampleEngine_ssao_on.1.symm) (le_of_eq sampleEngine_ssao_on.2.symm)).1,
    (HandleInput_ssao_floor { sampleEngine with mbIsAmbientOcclusionOn := true }
      [{ Input.idle with scrollDown := true },
       { Input.idle with scrollDown := true, shiftDown := true },
       { Input.idle with scrollDown := true },
       { Input.idle with scrollUp := true }] Input.idle
      (le_of_eq sampleEngine_ssao_on.1.symm) (le_of_eq sampleEngine_ssao_on.2.symm)).2.1⟩

/-! ## Debug strip layout -/

theorem offsetQuad_of_getElem? (p : ℚ) (l : List DrawQuadOnScreenCommand) (i : Nat)
    (prev cur : DrawQuadOnScreenCommand) (h1 : l[i - 1]? = some prev) (h2 : l[i]? = some cur) :
    offsetQuad p l i
      = l.set i (withOffsetX cur
          (prev.bottomLeftCornerScreenCoordinates.x + prev.dimensionsInPixels.x + p)) := by
  unfold offsetQuad
  rw [h1, h2]
  rfl

theorem tileOffset_succ (p : ℚ) (cmds : List DrawQuadOnScreenCommand) (k : Nat)
    (q : DrawQuadOnScreenCommand) (hq : cmds[k]? = some q) :
    tileOffset p cmds (k + 1) = tileOffset p cmds k + q.dimensionsInPixels.x + p := by
  unfold tileOffset
  rw [List.take_succ, hq]
  simp
  ring

/-- The state of the strip after the loop has handled the indices `1 .. k`. -/
theorem layoutQuadsUpTo_getElem? (p : ℚ) (cmds : List DrawQuadOnScreenCommand)
    (h0 : ∀ q ∈ cmds, q.bottomLeftCornerScreenCoordinates.x = 0) (k : Nat)
    (hk : k ≤ cmds.length - 1) :
    ∀ i, (layoutQuadsUpTo p cmds k)[i]?
      = (cmds[i]?).map (fun q => if i ≤ k then withOffsetX q (tileOffset p cmds i) else q) := by
  induction k with
  | zero =>
      intro i
      simp only [layoutQuadsUpTo, List.range'_zero, List.foldl_nil]
      cases hq : cmds[i]? with
      | none => rfl
      | some q =>
          simp only [Option.map_some', Nat.le_zero_eq]
          split
          · rename_i hi
            subst hi
            have hx := h0 q (List.getElem?_mem hq)
            have hz : tileOffset p cmds 0 = 0 := by simp [tileOffset]
            rw [hz, ← hx]
            rfl
          · rfl
  | succ k ih =>
      have ih := ih (by omega)
      intro i
      have hlt : k + 1 < cmds.length := by omega
      have hstep : layoutQuadsUpTo p cmds (k + 1)
          = offsetQuad p (layoutQuadsUpTo p cmds k) (k + 1) := by
        simp only [layoutQuadsUpTo, List.range'_concat, List.foldl_append, List.foldl_cons,
          List.foldl_nil, Nat.one_mul]
        rw [Nat.add_comm 1 k]
      have hk0 : cmds[k]? = some (cmds.get ⟨k, by omega⟩) := by
        simp [List.getElem?_eq_getElem]
      have hk1 : cmds[k + 1]? = some (cmds.get ⟨k + 1, hlt⟩) := by
        simp [List.getElem?_eq_getElem]
      have hprev := ih k
      rw [hk0] at hprev
      simp only [Option.map_some', le_refl, if_true] at hprev
      have hcur := ih (k + 1)
      rw [hk1] at hcur
      simp only [Option.map_some', Nat.not_succ_le_self, if_false] at hcur
      have hlen : (layoutQuadsUpTo p cmds k).length = cmds.length := by
        by_contra hne
        rcases Nat.lt_or_gt_of_ne hne with h | h
        · have h1 := ih ((layoutQuadsUpTo p cmds k).length)
          rw [List.getElem?_eq_none (le_refl _)] at h1
          rw [List.getElem?_eq_getElem h] at h1
          simp at h1
        · have h1 := ih cmds.length
          rw [List.getElem?_eq_none (le_refl _)] at h1
          rw [List.getElem?_eq_getElem h] at h1
          simp at h1
      rw [hstep, offsetQuad_of_getElem? p _ (k + 1) _ _ (by simpa using hprev) hcur,
        List.getElem?_set]
      have hto := tileOffset_succ p cmds k _ hk0
      by_cases hi : k + 1 = i
      · subst hi
        simp only [if_true, hlen, hlt, hk1, Option.map_some', le_refl]
        simp only [withOffsetX, hto]
        rfl
      · simp only [hi, if_false]
        rw [ih i]
        cases hq : cmds[i]? with
        | none => rfl
        | some q =>
            simp only [Option.map_some']
            have : (i ≤ k + 1) ↔ (i ≤ k) := by omega
            simp only [this]

/-- C10: when every tile of the strip starts at x = 0, the layout loop with padding
`p` keeps the number of tiles and puts tile `i` at x-offset
`(w0 + ... + w(i-1)) + i * p`, leaving its y-offset, its dimensions, its texture and its
depth flag as they were. -/
theorem layoutQuads_offsets (p : ℚ) (cmds : List DrawQuadOnScreenCommand)
    (h0 : ∀ q ∈ cmds, q.bottomLeftCornerScreenCoordinates.x = 0) :
    (layoutQuads p cmds).length = cmds.length
      ∧ ∀ (i : Nat) (q : DrawQuadOnScreenCommand), cmds[i]? = some q →
          ∃ r, (layoutQuads p cmds)[i]? = some r
            ∧ r.bottomLeftCornerScreenCoordinates.x
                = ((cmds.take i).map (fun t => t.dimensionsInPixels.x)).sum + i * p
            ∧ r.bottomLeftCornerScreenCoordinates.y = q.bottomLeftCornerScreenCoordinates.y
            ∧ r.dimensionsInPixels = q.dimensionsInPixels
            ∧ r.texture = q.texture
            ∧ r.bIsDepthTexture = q.bIsDepthTexture := by
  have hget := layoutQuadsUpTo_getElem? p cmds h0 (cmds.length - 1) (le_refl _)
  have hdef : layoutQuads p cmds = layoutQuadsUpTo p cmds (cmds.length - 1) := rfl
  rw [hdef]
  refine ⟨?_, ?_⟩
  · by_contra hne
    rcases Nat.lt_or_gt_of_ne hne with h | h
    · have h1 := hget ((layoutQuadsUpTo p cmds (cmds.length - 1)).length)
      rw [List.getElem?_eq_none (le_refl _)] at h1
      rw [List.getElem?_eq_getElem h] at h1
      simp at h1
    · have h1 := hget cmds.length
      rw [List.getElem?_eq_none (le_refl _)] at h1
      rw [List.getElem?_eq_getElem h] at h1
      simp at h1
  · intro i q hq
    have hi : i < cmds.length := by
      by_contra hge
      rw [List.getElem?_eq_none (not_lt.mp hge)] at hq
      simp at hq
    have hle : i ≤ cmds.length - 1 := by omega
    refine ⟨withOffsetX q (tileOffset p cmds i), ?_, rfl, rfl, rfl, rfl, rfl⟩
    rw [hget i, hq]
    simp [hle]

/-- C10, at the worked example: widths 227, 227, 128, 227 and padding 0. -/
theorem layoutQuads_offsets_witness :
    (∀ q ∈ exampleStrip, q.bottomLeftCornerScreenCoordinates.x = 0)
      ∧ (layoutQuads 0 exampleStrip).length = exampleStrip.length :=
  ⟨by simp [exampleStrip, tileOfWidth],
    (layoutQuads_offsets 0 exampleStrip (by simp [exampleStrip, tileOfWidth])).1⟩

/-- The worked example evaluated: the offsets are 0, 227, 454, 582. -/
theorem layoutQuads_example :
    (layoutQuads 0 exampleStrip).map (fun t => t.bottomLeftCornerScreenCoordinates.x)
      = [0, 227, 454, 582] := by
  simp [layoutQuads, exampleStrip, tileOfWidth, offsetQuad, List.range']
  norm_num

/-! ## Render: stage order -/

theorem StagesWithin_append {lo hi : Nat} {l1 l2 : List Call}
    (h1 : StagesWithin lo hi l1) (h2 : StagesWithin lo hi l2) :
    StagesWithin lo hi (l1 ++ l2) := by
  intro c hc
  rcases List.mem_append.mp hc with h | h
  · exact h1 c h
  · exact h2 c h

theorem StagesWithin_ite {lo hi : Nat} {b : Prop} [Decidable b] {l1 l2 : List Call}
    (h1 : StagesWithin lo hi l1) (h2 : StagesWithin lo hi l2) :
    StagesWithin lo hi (if b then l1 else l2) := by
  split
  · exact h1
  · exact h2

theorem StagesWithin_nil {lo hi : Nat} : StagesWithin lo hi [] := by
  intro c hc; simp at hc

theorem StagesWithin_mono {lo hi lo2 hi2 : Nat} {l : List Call} (h : StagesWithin lo hi l)
    (h1 : lo2 ≤ lo) (h2 : hi ≤ hi2) : StagesWithin lo2 hi2 l := by
  intro c hc P hP
  have := h c hc P hP
  omega

theorem StageOrdered_of_within {k : Nat} {l : List Call} (w : StagesWithin k k l) :
    StageOrdered l := by
  unfold StageOrdered
  rw [List.pairwise_iff_getElem]
  intro i j hi hj _ pa pb hpa hpb
  have h1 := w _ (List.getElem_mem hi) pa hpa
  have h2 := w _ (List.getElem_mem hj) pb hpb
  omega

theorem StageOrdered_append {lo m hi : Nat} {l1 l2 : List Call} (o1 : StageOrdered l1)
    (w1 : StagesWithin lo m l1) (w2 : StagesWithin hi hi l2) (hm : m ≤ hi) (hlo : lo ≤ hi) :
    StageOrdered (l1 ++ l2) ∧ StagesWithin lo hi (l1 ++ l2) := by
  refine ⟨?_, ?_⟩
  · unfold StageOrdered
    rw [List.pairwise_append]
    refine ⟨o1, StageOrdered_of_within w2, ?_⟩
    intro a ha b hb pa pb hpa hpb
    have h1 := w1 a ha pa hpa
    have h2 := w2 b hb pb hpb
    omega
  · intro c hc P hP
    rcases List.mem_append.mp hc with h | h
    · have := w1 c h P hP; omega
    · have h2 := w2 c h P hP
      omega

theorem Precedes_of_StageOrdered {tr : List Call} {P Q : Pass} (o : StageOrdered tr)
    (h : stageRank P < stageRank Q) : Precedes P Q tr := by
  intro i j a b hi hj hpa hqb
  obtain ⟨hi1, hi2⟩ := List.getElem?_eq_some.mp hi
  obtain ⟨hj1, hj2⟩ := List.getElem?_eq_some.mp hj
  by_contra hn
  rcases Nat.lt_or_eq_of_le (Nat.le_of_not_lt hn) with hlt | heq
  · have := (List.pairwise_iff_getElem.mp o) j i hj1 hi1 hlt Q P
      (by rw [hj2]; exact hqb) (by rw [hi2]; exact hpa)
    omega
  · subst heq
    rw [hi2] at hj2
    subst hj2
    rw [hpa] at hqb
    injection hqb with hPQ
    subst hPQ
    omega

theorem shadowStage_stages (e : Engine) (sc : FrameScene) :
    StagesWithin 1 1 (shadowStage e sc) := by
  intro c hc P hP
  simp [shadowStage] at hc
  rcases hc with rfl | rfl | rfl | rfl <;> simp [passOf] at hP <;> subst hP <;> decide

theorem lightingSetup_stages (e : Engine) (k : Nat) : StagesWithin k k (lightingSetup e) := by
  intro c hc P hP
  simp [lightingSetup] at hc
  rcases hc with rfl | rfl | rfl <;> simp [passOf] at hP

theorem RenderLights_stages (e : Engine) (sc : FrameScene) :
    StagesWithin 2 2 (RenderLights e sc) := by
  intro c hc P hP
  simp [RenderLights, renderLightCalls] at hc
  rcases hc with rfl | rfl | rfl | ⟨l, _, rfl | rfl | rfl | rfl | rfl | rfl⟩ | rfl <;>
    simp [passOf] at hP <;> subst hP <;> decide

theorem SendLightData_stages (e : Engine) : StagesWithin 2 2 (SendLightData e) := by
  apply StagesWithin_append
  · intro c hc P hP
    simp at hc
    rcases hc with rfl | rfl | rfl | rfl <;> simp [passOf] at hP <;> subst hP <;> decide
  · apply StagesWithin_ite
    · intro c hc P hP
      simp at hc
      rcases hc with rfl | rfl | rfl <;> simp [passOf] at hP
    · exact StagesWithin_nil

theorem aoTextureCalls_stages (e : Engine) (k : Nat) :
    StagesWithin k k (aoTextureCalls e) := by
  apply StagesWithin_ite
  · intro c hc P hP
    simp at hc
    subst hc
    simp [passOf] at hP
  · exact StagesWithin_nil

theorem deferredStage_stages (e : Engine) (sc : FrameScene) :
    StagesWithin 2 2 (deferredStage e sc) := by
  unfold deferredStage
  simp only []
  refine StagesWithin_append (StagesWithin_append (StagesWithin_append (StagesWithin_append
    (StagesWithin_append ?_ ?_) (aoTextureCalls_stages e 2)) ?_) (RenderLights_stages e sc)) ?_
  · intro c hc P hP
    simp at hc
    rcases hc with rfl | rfl | rfl | rfl | rfl | rfl | rfl | rfl <;>
      simp [passOf] at hP <;> subst hP <;> decide
  · apply StagesWithin_ite _ StagesWithin_nil
    intro c hc P hP
    simp at hc
    rcases hc with rfl | rfl | rfl | rfl <;> simp [passOf] at hP <;> subst hP <;> decide
  · intro c hc P hP
    simp at hc
    rcases hc with rfl | rfl | rfl | rfl <;> simp [passOf] at hP <;> subst hP <;> decide
  · apply StagesWithin_ite _ StagesWithin_nil
    intro c hc P hP
    simp at hc
    rcases hc with rfl | rfl | rfl | rfl <;> simp [passOf] at hP

theorem forwardStage_stages (e : Engine) (sc : FrameScene) :
    StagesWithin 2 2 (forwardStage e sc) := by
  unfold forwardStage
  refine StagesWithin_append (StagesWithin_append (StagesWithin_append (StagesWithin_append
    (StagesWithin_append ?_ ?_) ?_) ?_) ?_) (RenderLights_stages e sc)
  · intro c hc P hP
    simp at hc
    rcases hc with rfl | rfl | rfl | rfl <;> simp [passOf] at hP
  · apply StagesWithin_ite
    · intro c hc P hP
      simp at hc
      subst hc
      simp [passOf] at hP
    · intro c hc P hP
      simp at hc
      rcases hc with rfl | rfl <;> simp [passOf] at hP
  · intro c hc P hP
    simp at hc
    rcases hc with rfl | rfl
    · simp [passOf] at hP; subst hP; decide
    · simp [passOf] at hP
  · apply StagesWithin_ite _ StagesWithin_nil
    apply StagesWithin_append _ (SendLightData_stages e)
    intro c hc P hP
    simp at hc
    rcases hc with rfl | rfl <;> simp [passOf] at hP
  · intro c hc P hP
    simp at hc
    rcases hc with rfl | rfl
    · simp [passOf] at hP; subst hP; decide
    · simp [passOf] at hP

theorem modeStage_stages (e : Engine) (sc : FrameScene) :
    StagesWithin 2 2 (modeStage e sc) := by
  unfold modeStage
  split
  · exact deferredStage_stages e sc
  · exact forwardStage_stages _ sc

theorem tbnStage_stages (e : Engine) (sc : FrameScene) :
    StagesWithin 3 3 (tbnStage e sc) := by
  intro c hc P hP
  simp only [tbnStage, List.mem_append, List.mem_map, List.mem_filter] at hc
  rcases hc with ((((hc | hc) | hc) | hc) | hc) | hc
  · simp at hc; subst hc; simp [passOf] at hP; subst hP; decide
  · have h := mem_of_mem_ite_nil hc
    simp at h; subst h; simp [passOf] at hP
  · simp at hc; subst hc; simp [passOf] at hP
  · obtain ⟨obj, _, rfl⟩ := hc
    simp [passOf] at hP; subst hP; decide
  · have h := mem_of_mem_ite_nil hc
    simp at h; subst h; simp [passOf] at hP
  · simp at hc
    rcases hc with rfl | rfl <;> simp [passOf] at hP

theorem debugStage_stages (e : Engine) : StagesWithin 5 5 (debugStage e) := by
  unfold debugStage
  apply StagesWithin_ite _ StagesWithin_nil
  refine StagesWithin_append (StagesWithin_append (StagesWithin_append (StagesWithin_append
    ?_ (aoTextureCalls_stages e 5)) ?_) ?_) ?_
  · intro c hc P hP
    simp at hc
    rcases hc with rfl | rfl | rfl | rfl | rfl <;> simp [passOf] at hP
  · intro c hc P hP
    simp at hc
    rcases hc with rfl | rfl
    · simp [passOf] at hP; subst hP; decide
    · simp [passOf] at hP
  · intro c hc P hP
    simp only [List.mem_map] at hc
    obtain ⟨q, _, rfl⟩ := hc
    simp [passOf] at hP; subst hP; decide
  · intro c hc P hP
    simp at hc
    subst hc
    simp [passOf] at hP

theorem postProcess_stages : StagesWithin 4 4 [Call.PostProcessRender] := by
  intro c hc P hP
  simp at hc
  subst hc
  simp [passOf] at hP; subst hP; decide

theorem end_stages (k : Nat) : StagesWithin k k [Call.End] := by
  intro c hc P hP
  simp at hc
  subst hc
  simp [passOf] at hP

theorem Render_calls (e : Engine) (sc : FrameScene) :
    (Render e sc).2
      = shadowStage e sc ++ lightingSetup e ++ modeStage e sc ++ tbnStage (afterModeBranch e) sc
          ++ [Call.PostProcessRender] ++ debugStage (afterModeBranch e) ++ [Call.End] := rfl

theorem afterModeBranch_mDebugRender (e : Engine) :
    (afterModeBranch e).mDebugRender = e.mDebugRender := by
  unfold afterModeBranch
  split <;> rfl

theorem Render_StageOrdered (e : Engine) (sc : FrameScene) : StageOrdered (Render e sc).2 := by
  rw [Render_calls]
  have s1 := StageOrdered_append (StageOrdered_of_within (shadowStage_stages e sc))
    (shadowStage_stages e sc) (lightingSetup_stages e 1) (le_refl 1) (le_refl 1)
  have s2 := StageOrdered_append s1.1 s1.2 (modeStage_stages e sc) (by decide) (by decide)
  have s3 := StageOrdered_append s2.1 s2.2 (tbnStage_stages (afterModeBranch e) sc)
    (by decide) (by decide)
  have s4 := StageOrdered_append s3.1 s3.2 postProcess_stages (by decide) (by decide)
  have s5 := StageOrdered_append s4.1 s4.2 (debugStage_stages (afterModeBranch e))
    (by decide) (by decide)
  exact (StageOrdered_append s5.1 s5.2 (end_stages 5) (le_refl 5) (by decide)).1

theorem countP_eq_zero_of_stages {l : List Call} {k : Nat} (w : StagesWithin k k l)
    (p : Call → Bool) (P : Pass) (hp : ∀ c, p c = true → passOf c = some P)
    (hk : stageRank P ≠ k) : l.countP p = 0 := by
  rw [List.countP_eq_zero]
  intro c hc hpc
  have := w c hc P (hp c hpc)
  omega

theorem invokesShadowPass_pass (c : Call) (h : invokesShadowPass c = true) :
    passOf c = some Pass.shadow := by
  cases c <;> simp [invokesShadowPass] at h
  rfl

theorem invokesPostProcess_pass (c : Call) (h : invokesPostProcess c = true) :
    passOf c = some Pass.postProcess := by
  cases c <;> simp [invokesPostProcess] at h
  rfl

theorem Render_shadow_count (e : Engine) (sc : FrameScene) :
    (Render e sc).2.countP invokesShadowPass = 1 := by
  rw [Render_calls]
  simp only [List.countP_append]
  rw [countP_eq_zero_of_stages (lightingSetup_stages e 2) _ _ invokesShadowPass_pass (by decide),
    countP_eq_zero_of_stages (modeStage_stages e sc) _ _ invokesShadowPass_pass (by decide),
    countP_eq_zero_of_stages (tbnStage_stages _ sc) _ _ invokesShadowPass_pass (by decide),
    countP_eq_zero_of_stages postProcess_stages _ _ invokesShadowPass_pass (by decide),
    countP_eq_zero_of_stages (debugStage_stages _) _ _ invokesShadowPass_pass (by decide),
    countP_eq_zero_of_stages (end_stages 5) _ _ invokesShadowPass_pass (by decide)]
  simp [shadowStage, invokesShadowPass, List.countP_cons]

theorem Render_postProcess_count (e : Engine) (sc : FrameScene) :
    (Render e sc).2.countP invokesPostProcess = 1 := by
  rw [Render_calls]
  simp only [List.countP_append]
  rw [countP_eq_zero_of_stages (shadowStage_stages e sc) _ _ invokesPostProcess_pass
      (by decide),
    countP_eq_zero_of_stages (lightingSetup_stages e 2) _ _ invokesPostProcess_pass (by decide),
    countP_eq_zero_of_stages (modeStage_stages e sc) _ _ invokesPostProcess_pass (by decide),
    countP_eq_zero_of_stages (tbnStage_stages _ sc) _ _ invokesPostProcess_pass (by decide),
    countP_eq_zero_of_stages (debugStage_stages _) _ _ invokesPostProcess_pass (by decide),
    countP_eq_zero_of_stages (end_stages 5) _ _ invokesPostProcess_pass (by decide)]
  simp [invokesPostProcess, List.countP_cons]

theorem Render_debugOverlay_iff (e : Engine) (sc : FrameScene) :
    (∃ c ∈ (Render e sc).2, passOf c = some Pass.debugOverlay) ↔ e.mDebugRender = true := by
  constructor
  · rintro ⟨c, hc, hP⟩
    have no : ∀ {l : List Call} {k : Nat}, StagesWithin k k l → k ≠ 5 → c ∈ l → False := by
      intro l k w hk hm
      have := w c hm _ hP
      simp only [stageRank] at this
      omega
    rw [Render_calls] at hc
    simp only [List.mem_append] at hc
    rcases hc with (((((hc | hc) | hc) | hc) | hc) | hc) | hc
    · exact (no (shadowStage_stages e sc) (by decide) hc).elim
    · exact (no (lightingSetup_stages e 2) (by decide) hc).elim
    · exact (no (modeStage_stages e sc) (by decide) hc).elim
    · exact (no (tbnStage_stages _ sc) (by decide) hc).elim
    · exact (no postProcess_stages (by decide) hc).elim
    · by_contra hd
      have hd2 : (afterModeBranch e).mDebugRender = false := by
        rw [afterModeBranch_mDebugRender]; simpa using hd
      simp [debugStage, hd2] at hc
    · exact (no (end_stages 2) (by decide) hc).elim
  · intro hd
    refine ⟨Call.BeginEvent "Debug Pass", ?_, by simp [passOf]⟩
    have hd2 : (afterModeBranch e).mDebugRender = true := by
      rw [afterModeBranch_mDebugRender]; exact hd
    rw [Render_calls]
    simp [debugStage, hd2]

/-- C7: in every rendering-mode state the calls of one `Render` follow the stage order:
the shadow pass runs exactly once and before every call of the geometry, ambient
occlusion and lighting passes; every call of the lighting pass and of the light-marker
pass comes before the tangent-frame stage; the post-process pass runs exactly once and
after the tangent-frame stage; calls of the debug overlay occur exactly when the debug
flag is set, and only after post-process; and the last call is `End`. -/
theorem Render_stage_order (e : Engine) (sc : FrameScene) :
    (Render e sc).2.countP invokesShadowPass = 1
      ∧ Precedes Pass.shadow Pass.geometry (Render e sc).2
      ∧ Precedes Pass.shadow Pass.ambientOcclusion (Render e sc).2
      ∧ Precedes Pass.shadow Pass.lighting (Render e sc).2
      ∧ Precedes Pass.lighting Pass.tbn (Render e sc).2
      ∧ Precedes Pass.lightMarkers Pass.tbn (Render e sc).2
      ∧ (Render e sc).2.countP invokesPostProcess = 1
      ∧ Precedes Pass.tbn Pass.postProcess (Render e sc).2
      ∧ ((∃ c ∈ (Render e sc).2, passOf c = some Pass.debugOverlay) ↔ e.mDebugRender = true)
      ∧ Precedes Pass.postProcess Pass.debugOverlay (Render e sc).2
      ∧ (Render e sc).2.getLast? = some Call.End := by
  have o := Render_StageOrdered e sc
  refine ⟨Render_shadow_count e sc, Precedes_of_StageOrdered o (by decide),
    Precedes_of_StageOrdered o (by decide), Precedes_of_StageOrdered o (by decide),
    Precedes_of_StageOrdered o (by decide), Precedes_of_StageOrdered o (by decide),
    Render_postProcess_count e sc, Precedes_of_StageOrdered o (by decide),
    Render_debugOverlay_iff e sc, Precedes_of_StageOrdered o (by decide), ?_⟩
  rw [Render_calls]
  exact List.getLast?_concat _

/-! ## The first frame in forward mode -/

theorem NoGBufferUse_append {l1 l2 : List Call} (h1 : NoGBufferUse l1) (h2 : NoGBufferUse l2) :
    NoGBufferUse (l1 ++ l2) := by
  intro c hc
  rcases List.mem_append.mp hc with h | h
  · exact h1 c h
  · exact h2 c h

theorem NoGBufferUse_ite {b : Prop} [Decidable b] {l1 l2 : List Call} (h1 : NoGBufferUse l1)
    (h2 : NoGBufferUse l2) : NoGBufferUse (if b then l1 else l2) := by
  split
  · exact h1
  · exact h2

theorem NoGBufferUse_nil : NoGBufferUse [] := by
  intro c hc; simp at hc

theorem NoGBufferUse_filterMap {l : List Call} (h : NoGBufferUse l) :
    l.filterMap renderTargetRead = [] := by
  rw [List.filterMap_eq_nil_iff]
  intro c hc
  exact (h c hc).2

theorem shadowStage_noGBufferUse (e : Engine) (sc : FrameScene) :
    NoGBufferUse (shadowStage e sc) := by
  intro c hc
  simp [shadowStage] at hc
  rcases hc with rfl | rfl | rfl | rfl <;> simp [isGBufferPass, renderTargetRead]

theorem lightingSetup_noGBufferUse (e : Engine) : NoGBufferUse (lightingSetup e) := by
  intro c hc
  simp [lightingSetup] at hc
  rcases hc with rfl | rfl | rfl <;> simp [isGBufferPass, renderTargetRead]

theorem RenderLights_noGBufferUse (e : Engine) (sc : FrameScene) :
    NoGBufferUse (RenderLights e sc) := by
  intro c hc
  simp [RenderLights, renderLightCalls] at hc
  rcases hc with rfl | rfl | rfl | ⟨l, _, rfl | rfl | rfl | rfl | rfl | rfl⟩ | rfl <;>
    simp [isGBufferPass, renderTargetRead]

theorem SendLightData_noGBufferUse (e : Engine) : NoGBufferUse (SendLightData e) := by
  apply NoGBufferUse_append
  · intro c hc
    simp at hc
    rcases hc with rfl | rfl | rfl | rfl <;> simp [isGBufferPass, renderTargetRead]
  · apply NoGBufferUse_ite _ NoGBufferUse_nil
    intro c hc
    simp at hc
    rcases hc with rfl | rfl | rfl <;> simp [isGBufferPass, renderTargetRead]

theorem forwardStage_noGBufferUse (e : Engine) (sc : FrameScene) :
    NoGBufferUse (forwardStage e sc) := by
  unfold forwardStage
  refine NoGBufferUse_append (NoGBufferUse_append (NoGBufferUse_append (NoGBufferUse_append
    (NoGBufferUse_append ?_ ?_) ?_) ?_) ?_) (RenderLights_noGBufferUse e sc)
  · intro c hc
    simp at hc
    rcases hc with rfl | rfl | rfl | rfl <;> simp [isGBufferPass, renderTargetRead]
  · apply NoGBufferUse_ite
    · intro c hc
      simp at hc
      subst hc
      simp [isGBufferPass, renderTargetRead]
    · intro c hc
      simp at hc
      rcases hc with rfl | rfl <;> simp [isGBufferPass, renderTargetRead]
  · intro c hc
    simp at hc
    rcases hc with rfl | rfl <;> simp [isGBufferPass, renderTargetRead]
  · apply NoGBufferUse_ite _ NoGBufferUse_nil
    apply NoGBufferUse_append _ (SendLightData_noGBufferUse e)
    intro c hc
    simp at hc
    rcases hc with rfl | rfl <;> simp [isGBufferPass, renderTargetRead]
  · intro c hc
    simp at hc
    rcases hc with rfl | rfl <;> simp [isGBufferPass, renderTargetRead]

theorem tbnStage_noGBufferUse (e : Engine) (sc : FrameScene) :
    NoGBufferUse (tbnStage e sc) := by
  intro c hc
  simp only [tbnStage, List.mem_append, List.mem_map, List.mem_filter] at hc
  rcases hc with ((((hc | hc) | hc) | hc) | hc) | hc
  · simp at hc; subst hc; simp [isGBufferPass, renderTargetRead]
  · have h := mem_of_mem_ite_nil hc
    simp at h; subst h; simp [isGBufferPass, renderTargetRead]
  · simp at hc; subst hc; simp [isGBufferPass, renderTargetRead]
  · obtain ⟨obj, _, rfl⟩ := hc
    simp [isGBufferPass, renderTargetRead]
  · have h := mem_of_mem_ite_nil hc
    simp at h; subst h; simp [isGBufferPass, renderTargetRead]
  · simp at hc
    rcases hc with rfl | rfl <;> simp [isGBufferPass, renderTargetRead]

theorem isGBufferPass_of_stages {l : List Call} {k : Nat} (w : StagesWithin k k l)
    (hk : k ≠ 2) : ∀ c ∈ l, isGBufferPass c = false := by
  intro c hc
  by_contra hne
  have ht : isGBufferPass c = true := by simpa using hne
  have hr : ∃ P, passOf c = some P ∧ stageRank P = 2 := by
    cases c <;> simp [isGBufferPass] at ht
    case BeginEvent label =>
      rcases ht with h | h <;> subst h <;> simp [passOf, stageRank]
    all_goals simp [passOf, stageRank]
  obtain ⟨P, hP, h2⟩ := hr
  have := w c hc P hP
  omega

theorem HandleInput_idle (e : Engine) (h : e.mbIsAmbientOcclusionOn = false) :
    HandleInput e Input.idle = (true, e, []) := by
  have hk : handleKeys e Input.idle = (e, []) := by
    simp [handleKeys, selectDebugShader, Input.idle]
  have ha : adjustSSAO e Input.idle = (e, []) := by simp [adjustSSAO, h]
  have h1 : Input.idle.escapeDown = false := rfl
  have h2 : Input.idle.backspaceTriggered = false := rfl
  unfold HandleInput
  simp only [h1, h2, Bool.false_eq_true, if_false, hk, ha, List.append_nil]

/-- The engine at the start of `Render` in the first frame. -/
theorem firstFrame_engine (e : Engine) (sc : FrameScene)
    (hd : e.sEngineSettings.bUseDeferredRendering = false)
    (ha : e.sEngineSettings.bAmbientOcclusion = false) :
    (PreRender (Initialize e true).2 sc).mUseDeferredRendering = false
      ∧ (PreRender (Initialize e true).2 sc).mbIsAmbientOcclusionOn = false
      ∧ (PreRender (Initialize e true).2 sc).mDebugRender = true
      ∧ (PreRender (Initialize e true).2 sc).mPostProcessPass = e.mPostProcessPass
      ∧ (PreRender (Initialize e true).2 sc).mDeferredRenderingPasses._GBuffer._diffuseRoughnessRT
          = e.mDeferredRenderingPasses._GBuffer._diffuseRoughnessRT
      ∧ (PreRender (Initialize e true).2 sc).mDeferredRenderingPasses._GBuffer._normalRT
          = e.mDeferredRenderingPasses._GBuffer._normalRT := by
  simp [PreRender, Initialize, hd, ha, DeferredRenderingPasses.InitializeGBuffer]

theorem firstFrame_calls (e : Engine) (sc : FrameScene)
    (_hd : e.sEngineSettings.bUseDeferredRendering = false)
    (ha : e.sEngineSettings.bAmbientOcclusion = false) (hp : e.mbIsPaused = false) :
    firstFrame e sc
      = [Call.TimerTick, Call.CalcFrameStats, Call.CameraUpdate, Call.SceneManagerUpdate,
          Call.PreRender, Call.Render]
        ++ (Render (PreRender (Initialize e true).2 sc) sc).2 ++ [Call.InputUpdate] := by
  have h0 : (Initialize e true).2.mbIsAmbientOcclusionOn = false := by
    simp [Initialize, ha]
  have h1 : (Initialize e true).2.mbIsPaused = false := by
    simp [Initialize, hp]
  unfold firstFrame UpdateAndRender
  rw [HandleInput_idle _ h0]
  simp [updateAndDraw, h1]

theorem frameMarkers_stages (k : Nat) :
    StagesWithin k k [Call.TimerTick, Call.CalcFrameStats, Call.CameraUpdate,
      Call.SceneManagerUpdate, Call.PreRender, Call.Render] := by
  intro c hc P hP
  simp at hc
  rcases hc with rfl | rfl | rfl | rfl | rfl | rfl <;> simp [passOf] at hP

theorem inputUpdate_stages (k : Nat) : StagesWithin k k [Call.InputUpdate] := by
  intro c hc P hP
  simp at hc
  subst hc
  simp [passOf] at hP

/-- The render-target queries of `Render` in forward mode with ambient occlusion off:
none when the debug flag is clear, and with the debug flag set the three queries of the
debug strip, two of them on GBuffer targets. -/
theorem Render_forward_reads (e : Engine) (sc : FrameScene)
    (hd : e.mUseDeferredRendering = false) (ha : e.mbIsAmbientOcclusionOn = false) :
    (Render e sc).2.filterMap renderTargetRead
      = if e.mDebugRender then
          [ e.mPostProcessPass._bloomPass._blurPingPong0,
            e.mDeferredRenderingPasses._GBuffer._diffuseRoughnessRT,
            e.mDeferredRenderingPasses._GBuffer._normalRT ]
        else [] := by
  rw [Render_calls]
  simp only [List.filterMap_append]
  have hm : modeStage e sc = forwardStage (afterModeBranch e) sc := by
    simp [modeStage, hd]
  rw [NoGBufferUse_filterMap (shadowStage_noGBufferUse e sc),
    NoGBufferUse_filterMap (lightingSetup_noGBufferUse e), hm,
    NoGBufferUse_filterMap (forwardStage_noGBufferUse _ sc),
    NoGBufferUse_filterMap (tbnStage_noGBufferUse _ sc)]
  have he : afterModeBranch e = { e with mSelectedShader := forwardShader e } := by
    simp [afterModeBranch, hd]
  cases hdbg : e.mDebugRender
  · simp [debugStage, he, hdbg, renderTargetRead]
  · simp [debugStage, he, hdbg, aoTextureCalls, ha, renderTargetRead, List.filterMap_map]

/-- `Render` in forward mode makes no call of a GBuffer pass. -/
theorem Render_forward_noGBufferPass (e : Engine) (sc : FrameScene)
    (hd : e.mUseDeferredRendering = false) :
    ∀ c ∈ (Render e sc).2, isGBufferPass c = false := by
  intro c hc
  have hm : modeStage e sc = forwardStage (afterModeBranch e) sc := by
    simp [modeStage, hd]
  rw [Render_calls, hm] at hc
  simp only [List.mem_append] at hc
  rcases hc with (((((hc | hc) | hc) | hc) | hc) | hc) | hc
  · exact isGBufferPass_of_stages (shadowStage_stages e sc) (by decide) c hc
  · exact isGBufferPass_of_stages (lightingSetup_stages e 1) (by decide) c hc
  · exact (forwardStage_noGBufferUse _ sc c hc).1
  · exact isGBufferPass_of_stages (tbnStage_stages _ sc) (by decide) c hc
  · exact isGBufferPass_of_stages postProcess_stages (by decide) c hc
  · exact isGBufferPass_of_stages (debugStage_stages _) (by decide) c hc
  · exact isGBufferPass_of_stages (end_stages 1) (by decide) c hc

theorem firstFrame_reads (e : Engine) (sc : FrameScene)
    (hd : e.sEngineSettings.bUseDeferredRendering = false)
    (ha : e.sEngineSettings.bAmbientOcclusion = false) (hp : e.mbIsPaused = false) :
    (firstFrame e sc).filterMap renderTargetRead
      = [ e.mPostProcessPass._bloomPass._blurPingPong0,
          e.mDeferredRenderingPasses._GBuffer._diffuseRoughnessRT,
          e.mDeferredRenderingPasses._GBuffer._normalRT ] := by
  obtain ⟨f1, f2, f3, f4, f5, f6⟩ := firstFrame_engine e sc hd ha
  rw [firstFrame_calls e sc hd ha hp]
  simp only [List.filterMap_append]
  rw [Render_forward_reads _ sc f1 f2, f3, f4, f5, f6]
  simp [renderTargetRead]

/-- C8 (as stated, refuted): the first frame of the sample engine, initialized in forward
mode with ambient occlusion off and not paused, contains a read of a GBuffer render
target (the diffuse/roughness target, for the debug strip). -/
theorem firstFrame_reads_GBuffer :
    sampleEngine.sEngineSettings.bUseDeferredRendering = false
      ∧ sampleEngine.sEngineSettings.bAmbientOcclusion = false
      ∧ sampleEngine.mbIsPaused = false
      ∧ (Initialize sampleEngine true).1 = true
      ∧ ∃ c ∈ firstFrame sampleEngine (sceneWith []),
          readsGBuffer (Initialize sampleEngine true).2.mDeferredRenderingPasses._GBuffer c := by
  refine ⟨rfl, rfl, rfl, rfl, ?_⟩
  have h := firstFrame_reads sampleEngine (sceneWith []) rfl rfl rfl
  have hm : (11 : RenderTargetID) ∈ (firstFrame sampleEngine (sceneWith [])).filterMap
      renderTargetRead := by
    rw [h]
    simp [sampleEngine]
  obtain ⟨c, hc, hr⟩ := List.mem_filterMap.mp hm
  exact ⟨c, hc, Or.inr (Or.inl hr)⟩

/-- C8 (amended): for an engine initialized in forward mode with ambient occlusion off
and not paused, one `UpdateAndRender` without input runs the shadow pass exactly once and
the post-process pass exactly once, makes no call of a GBuffer pass (geometry-pass state
setup, deferred lighting pass, SSAO occlusion or blur), and its render-target reads are
exactly the three of the debug strip, which `Initialize` switches on: the bloom blur
target, the GBuffer diffuse/roughness target and the GBuffer normal target. -/
theorem firstFrame_forward (e : Engine) (sc : FrameScene)
    (hd : e.sEngineSettings.bUseDeferredRendering = false)
    (ha : e.sEngineSettings.bAmbientOcclusion = false) (hp : e.mbIsPaused = false) :
    (firstFrame e sc).countP invokesShadowPass = 1
      ∧ (firstFrame e sc).countP invokesPostProcess = 1
      ∧ (∀ c ∈ firstFrame e sc, isGBufferPass c = false)
      ∧ (firstFrame e sc).filterMap renderTargetRead
          = [ e.mPostProcessPass._bloomPass._blurPingPong0,
              e.mDeferredRenderingPasses._GBuffer._diffuseRoughnessRT,
              e.mDeferredRenderingPasses._GBuffer._normalRT ] := by
  obtain ⟨f1, _, _, _, _, _⟩ := firstFrame_engine e sc hd ha
  have hc := firstFrame_calls e sc hd ha hp
  refine ⟨?_, ?_, ?_, firstFrame_reads e sc hd ha hp⟩
  · rw [hc]
    simp only [List.countP_append]
    rw [Render_shadow_count,
      countP_eq_zero_of_stages (frameMarkers_stages 2) _ _ invokesShadowPass_pass (by decide),
      countP_eq_zero_of_stages (inputUpdate_stages 2) _ _ invokesShadowPass_pass (by decide)]
  · rw [hc]
    simp only [List.countP_append]
    rw [Render_postProcess_count,
      countP_eq_zero_of_stages (frameMarkers_stages 2) _ _ invokesPostProcess_pass (by decide),
      countP_eq_zero_of_stages (inputUpdate_stages 2) _ _ invokesPostProcess_pass (by decide)]
  · intro c hmem
    rw [hc] at hmem
    simp only [List.mem_append] at hmem
    rcases hmem with (hm | hm) | hm
    · exact isGBufferPass_of_stages (frameMarkers_stages 1) (by decide) c hm
    · exact Render_forward_noGBufferPass _ sc f1 c hm
    · exact isGBufferPass_of_stages (inputUpdate_stages 1) (by decide) c hm

/-- C8 (amended), at the sample engine with an empty scene. -/
theorem firstFrame_forward_witness :
    sampleEngine.sEngineSettings.bUseDeferredRendering = false
      ∧ sampleEngine.sEngineSettings.bAmbientOcclusion = false
      ∧ sampleEngine.mbIsPaused = false
      ∧ (firstFrame sampleEngine (sceneWith [])).countP invokesShadowPass = 1
      ∧ (firstFrame sampleEngine (sceneWith [])).filterMap renderTargetRead = [41, 11, 10] :=
  ⟨rfl, rfl, rfl, (firstFrame_forward sampleEngine (sceneWith []) rfl rfl rfl).1,
    (firstFrame_forward sampleEngine (sceneWith []) rfl rfl rfl).2.2.2⟩

/-! ## Shadow caster without a light in the spot bucket -/

theorem PreRender_spotLightCount (e : Engine) (sc : FrameScene) :
    (PreRender e sc).mSceneLightData.spotLightCount
      = sc.mLights.countP (routedTo Bucket.spot) :=
  PreRenderLights_count e.mShadowMapPass sc.mLights e.mSceneLightData Bucket.spot

theorem countP_spot_of_all_point (L : List Light)
    (h : ∀ l ∈ L, l._type = ELightType.POINT) : L.countP (routedTo Bucket.spot) = 0 := by
  rw [List.countP_eq_zero]
  intro l hl
  simp [routedTo, bucketOf, h l hl]

/-- C11 (as stated, refuted): for the list holding one Directional light, which has no
Spot light, `PreRender` overwrites slot 0 of the shadow caster table and `SendLightData`
issues a shadow binding. -/
theorem PreRender_directional_sets_shadowCaster :
    (∀ l ∈ [sampleLight ELightType.DIRECTIONAL 5], l._type ≠ ELightType.SPOT)
      ∧ (PreRender sampleEngine
            (sceneWith [sampleLight ELightType.DIRECTIONAL 5])).mSceneLightData.shadowCasterData
          ≠ sampleEngine.mSceneLightData.shadowCasterData
      ∧ ∃ c ∈ SendLightData (PreRender sampleEngine
            (sceneWith [sampleLight ELightType.DIRECTIONAL 5])), isShadowBinding c = true := by
  have hval : ((PreRender sampleEngine (sceneWith
      [sampleLight ELightType.DIRECTIONAL 5])).mSceneLightData.shadowCasterData 0).shadowMap
        = 30 := by
    simp [PreRender, PreRenderLights, gatherLights, gatherLight, bucketOf, sceneWith,
      sampleLight, sampleEngine, sampleLightData, SceneLightData.ResetCounts]
  have hcount : (PreRender sampleEngine (sceneWith
      [sampleLight ELightType.DIRECTIONAL 5])).mSceneLightData.spotLightCount = 1 := by
    rw [PreRender_spotLightCount]
    simp [sceneWith, sampleLight, routedTo, bucketOf]
  refine ⟨?_, ?_, ?_⟩
  · intro l hl
    simp at hl
    subst hl
    simp [sampleLight]
  · intro h
    have h0 := congrArg (fun f => (f 0).shadowMap) h
    simp only [hval] at h0
    simp [sampleEngine, sampleLightData] at h0
  · refine ⟨Call.SetTexture "texShadowMap"
      ((PreRender sampleEngine (sceneWith
        [sampleLight ELightType.DIRECTIONAL 5])).mSceneLightData.shadowCasterData 0).shadowMap,
      ?_, rfl⟩
    simp [SendLightData, hcount]

/-- C11 (amended): when the light list holds no light of the spot bucket, that is no
Spot and no Directional light, `PreRender` leaves the shadow caster table as it was and
`SendLightData` issues none of the shadow bindings `lightSpaceMat`, `texShadowMap`,
`sShadowSampler`. -/
theorem PreRender_without_spot_bucket (e : Engine) (sc : FrameScene)
    (h : ∀ l ∈ sc.mLights, l._type = ELightType.POINT) :
    (PreRender e sc).mSceneLightData.shadowCasterData = e.mSceneLightData.shadowCasterData
      ∧ ∀ c ∈ SendLightData (PreRender e sc), isShadowBinding c = false := by
  have hzero : (PreRender e sc).mSceneLightData.spotLightCount = 0 := by
    rw [PreRender_spotLightCount, countP_spot_of_all_point _ h]
  have hg : (gatherLights e.mSceneLightData.ResetCounts sc.mLights).spotLightCount = 0 := by
    have := gatherLights_count sc.mLights e.mSceneLightData.ResetCounts Bucket.spot
    rw [countP_spot_of_all_point _ h] at this
    simpa [SceneLightData.count, SceneLightData.ResetCounts] using this
  refine ⟨?_, ?_⟩
  · show (PreRenderLights _ _ _).shadowCasterData = _
    unfold PreRenderLights
    simp only [hg, Nat.lt_irrefl, if_false]
    rw [gatherLights_shadowCasterData]
    rfl
  · intro c hc
    simp only [SendLightData, hzero, Nat.lt_irrefl, if_false, List.append_nil] at hc
    simp at hc
    rcases hc with rfl | rfl | rfl | rfl <;> rfl

/-- C11 (amended), at a scene with two Point lights. -/
theorem PreRender_without_spot_bucket_witness :
    (∀ l ∈ (sceneWith [sampleLight ELightType.POINT 1, sampleLight ELightType.POINT 2]).mLights,
        l._type = ELightType.POINT)
      ∧ (PreRender sampleEngine (sceneWith
          [sampleLight ELightType.POINT 1, sampleLight ELightType.POINT 2])).mSceneLightData.shadowCasterData
          = sampleEngine.mSceneLightData.shadowCasterData :=
  ⟨by simp [sceneWith, sampleLight],
    (PreRender_without_spot_bucket sampleEngine
      (sceneWith [sampleLight ELightType.POINT 1, sampleLight ELightType.POINT 2])
      (by simp [sceneWith, sampleLight])).1⟩

/-! ## Render: depth-target binds and unbinds -/

theorem depthEvents_append (l1 l2 : List Call) :
    depthEvents (l1 ++ l2) = depthEvents l1 ++ depthEvents l2 := by
  simp [depthEvents]

theorem depthEvents_of_none {l : List Call} (h : NoDepthEvents l) : depthEvents l = [] := by
  unfold depthEvents
  rw [List.filterMap_eq_nil_iff]
  exact h

theorem NoDepthEvents_append {l1 l2 : List Call} (h1 : NoDepthEvents l1)
    (h2 : NoDepthEvents l2) : NoDepthEvents (l1 ++ l2) := by
  intro c hc
  rcases List.mem_append.mp hc with h | h
  · exact h1 c h
  · exact h2 c h

theorem NoDepthEvents_ite {b : Prop} [Decidable b] {l1 l2 : List Call}
    (h1 : NoDepthEvents l1) (h2 : NoDepthEvents l2) :
    NoDepthEvents (if b then l1 else l2) := by
  split
  · exact h1
  · exact h2

theorem NoDepthEvents_nil : NoDepthEvents [] := by
  intro c hc; simp at hc

theorem shadowStage_noDepthEvents (e : Engine) (sc : FrameScene) :
    NoDepthEvents (shadowStage e sc) := by
  intro c hc
  simp [shadowStage] at hc
  rcases hc with rfl | rfl | rfl | rfl <;> rfl

theorem lightingSetup_noDepthEvents (e : Engine) : NoDepthEvents (lightingSetup e) := by
  intro c hc
  simp [lightingSetup] at hc
  rcases hc with rfl | rfl | rfl <;> rfl

theorem RenderLights_noDepthEvents (e : Engine) (sc : FrameScene) :
    NoDepthEvents (RenderLights e sc) := by
  intro c hc
  simp [RenderLights, renderLightCalls] at hc
  rcases hc with rfl | rfl | rfl | ⟨l, _, rfl | rfl | rfl | rfl | rfl | rfl⟩ | rfl <;> rfl

theorem SendLightData_noDepthEvents (e : Engine) : NoDepthEvents (SendLightData e) := by
  apply NoDepthEvents_append
  · intro c hc
    simp at hc
    rcases hc with rfl | rfl | rfl | rfl <;> rfl
  · apply NoDepthEvents_ite _ NoDepthEvents_nil
    intro c hc
    simp at hc
    rcases hc with rfl | rfl | rfl <;> rfl

theorem aoTextureCalls_noDepthEvents (e : Engine) : NoDepthEvents (aoTextureCalls e) := by
  apply NoDepthEvents_ite _ NoDepthEvents_nil
  intro c hc
  simp at hc
  subst hc
  rfl

theorem debugStage_noDepthEvents (e : Engine) : NoDepthEvents (debugStage e) := by
  unfold debugStage
  apply NoDepthEvents_ite _ NoDepthEvents_nil
  refine NoDepthEvents_append (NoDepthEvents_append (NoDepthEvents_append
    (NoDepthEvents_append ?_ (aoTextureCalls_noDepthEvents e)) ?_) ?_) ?_
  · intro c hc
    simp at hc
    rcases hc with rfl | rfl | rfl | rfl | rfl <;> rfl
  · intro c hc
    simp at hc
    rcases hc with rfl | rfl <;> rfl
  · intro c hc
    simp only [List.mem_map] at hc
    obtain ⟨q, _, rfl⟩ := hc
    rfl
  · intro c hc
    simp at hc
    subst hc
    rfl

theorem deferredStage_depthEvents (e : Engine) (sc : FrameScene) :
    depthEvents (deferredStage e sc)
      = DepthEvent.bind ::
          (if e.mActiveSkybox ≠ ESkyboxPreset.SKYBOX_PRESET_COUNT then [DepthEvent.unbind]
            else []) := by
  unfold deferredStage
  simp only [depthEvents_append]
  rw [depthEvents_of_none (RenderLights_noDepthEvents e sc),
    depthEvents_of_none (aoTextureCalls_noDepthEvents e)]
  have h1 : depthEvents
      (if e.mbIsAmbientOcclusionOn = true then
        [Call.BeginEvent "Ambient Occlusion Pass",
          Call.RenderOcclusion
            (e.mpRenderer.GetRenderTargetTexture e.mDeferredRenderingPasses._GBuffer._normalRT)
            (e.mpRenderer.GetRenderTargetTexture
              e.mDeferredRenderingPasses._GBuffer._positionRT),
          Call.GaussianBlurPass, Call.EndEvent]
      else []) = [] := by
    split <;> rfl
  rw [h1]
  split <;> rfl

theorem forwardStage_depthEvents (e : Engine) (sc : FrameScene) :
    depthEvents (forwardStage e sc) = [DepthEvent.bind] := by
  unfold forwardStage
  simp only [depthEvents_append]
  rw [depthEvents_of_none (RenderLights_noDepthEvents e sc)]
  have h1 : depthEvents
      (if e.mActiveSkybox ≠ ESkyboxPreset.SKYBOX_PRESET_COUNT then
        [Call.SkyboxRender e.mActiveSkybox]
      else [Call.SetShader e.mSelectedShader, Call.Apply]) = [] := by
    split <;> rfl
  have h2 : depthEvents
      (if e.mSelectedShader = EShaders.FORWARD_BRDF
          ∨ e.mSelectedShader = EShaders.FORWARD_PHONG then
        [Call.SetConstant3f "cameraPos" sc.camera.GetPositionF,
          Call.SetSamplerState "sNormalSampler" e.mNormalSampler] ++ SendLightData e
      else []) = [] := by
    split
    · rw [depthEvents_append, depthEvents_of_none (SendLightData_noDepthEvents e)]
      rfl
    · rfl
  rw [h1, h2]
  rfl

theorem tbnStage_depthEvents (e : Engine) (sc : FrameScene) :
    depthEvents (tbnStage e sc)
      = if e.mUseDeferredRendering then [DepthEvent.bind, DepthEvent.unbind] else [] := by
  unfold tbnStage
  simp only [depthEvents_append]
  have h1 : depthEvents
      ((sc.sceneObjects.filter (fun obj => obj.bRenderTBN)).map Call.GameObjectRender) = [] := by
    apply depthEvents_of_none
    intro c hc
    simp only [List.mem_map] at hc
    obtain ⟨obj, _, rfl⟩ := hc
    rfl
  rw [h1]
  cases e.mUseDeferredRendering <;> rfl

/-- The depth-target events of one `Render`, for every state. -/
theorem Render_depthEvents (e : Engine) (sc : FrameScene) :
    depthEvents (Render e sc).2
      = if e.mUseDeferredRendering then
          if e.mActiveSkybox ≠ ESkyboxPreset.SKYBOX_PRESET_COUNT then
            [DepthEvent.bind, DepthEvent.unbind, DepthEvent.bind, DepthEvent.unbind,
              DepthEvent.present]
          else [DepthEvent.bind, DepthEvent.bind, DepthEvent.unbind, DepthEvent.present]
        else [DepthEvent.bind, DepthEvent.present] := by
  rw [Render_calls]
  simp only [depthEvents_append]
  rw [depthEvents_of_none (shadowStage_noDepthEvents e sc),
    depthEvents_of_none (lightingSetup_noDepthEvents e),
    depthEvents_of_none (debugStage_noDepthEvents _), tbnStage_depthEvents]
  have hpost : depthEvents [Call.PostProcessRender] = [] := rfl
  have hend : depthEvents [Call.End] = [DepthEvent.present] := rfl
  rw [hpost, hend]
  cases hd : e.mUseDeferredRendering
  · have hm : modeStage e sc = forwardStage (afterModeBranch e) sc := by
      simp [modeStage, hd]
    have ha : (afterModeBranch e).mUseDeferredRendering = false := by
      simp [afterModeBranch, hd]
    rw [hm, forwardStage_depthEvents, ha]
    rfl
  · have hm : modeStage e sc = deferredStage e sc := by
      simp [modeStage, hd]
    have ha : afterModeBranch e = e := by
      simp [afterModeBranch, hd]
    rw [hm, deferredStage_depthEvents, ha, hd]
    by_cases hs : e.mActiveSkybox ≠ ESkyboxPreset.SKYBOX_PRESET_COUNT
    · simp [hs]
    · simp [hs]

/-- C12 (as stated, refuted): in forward mode without a skybox the trace of `Render` has
one `BindDepthTarget` and then `End` with no `UnbindDepthTarget` between them, so the
binds and unbinds are not in matching pairs. -/
theorem Render_forward_depth_not_paired :
    sampleEngine.mUseDeferredRendering = false
      ∧ depthEvents (Render sampleEngine (sceneWith [])).2
          = [DepthEvent.bind, DepthEvent.present]
      ∧ depthPaired (Render sampleEngine (sceneWith [])).2 = false := by
  have h : depthEvents (Render sampleEngine (sceneWith [])).2
      = [DepthEvent.bind, DepthEvent.present] := by
    rw [Render_depthEvents]
    rfl
  refine ⟨rfl, h, ?_⟩
  unfold depthPaired
  rw [h]
  rfl

/-- C12 (amended): in deferred mode with an active skybox the trace of one `Render` has
`BindDepthTarget` and `UnbindDepthTarget` in matching pairs (bind, unbind, bind, unbind,
then `End`); in forward mode, with or without skybox, it has a single `BindDepthTarget`
and no `UnbindDepthTarget`, the depth target staying bound until `End`; and in every
state no `UnbindDepthTarget` comes without an earlier `BindDepthTarget` still open. -/
theorem Render_depth_target_pairs (e : Engine) (sc : FrameScene) :
    (e.mUseDeferredRendering = true →
        e.mActiveSkybox ≠ ESkyboxPreset.SKYBOX_PRESET_COUNT →
        depthEvents (Render e sc).2
            = [DepthEvent.bind, DepthEvent.unbind, DepthEvent.bind, DepthEvent.unbind,
                DepthEvent.present]
          ∧ depthPaired (Render e sc).2 = true)
      ∧ (e.mUseDeferredRendering = false →
          depthEvents (Render e sc).2 = [DepthEvent.bind, DepthEvent.present])
      ∧ unbindsMatchedFrom 0 (depthEvents (Render e sc).2) = true := by
  have h := Render_depthEvents e sc
  refine ⟨?_, ?_, ?_⟩
  · intro hd hs
    have h2 : depthEvents (Render e sc).2
        = [DepthEvent.bind, DepthEvent.unbind, DepthEvent.bind, DepthEvent.unbind,
            DepthEvent.present] := by
      rw [h]; simp [hd, hs]
    refine ⟨h2, ?_⟩
    unfold depthPaired
    rw [h2]
    rfl
  · intro hd
    rw [h]; simp [hd]
  · rw [h]
    repeat' split
    all_goals rfl

/-- C12 (amended), at a deferred engine with skybox preset 1. -/
theorem Render_depth_target_pairs_witness :
    deferredSkyboxEngine.mUseDeferredRendering = true
      ∧ deferredSkyboxEngine.mActiveSkybox ≠ ESkyboxPreset.SKYBOX_PRESET_COUNT
      ∧ depthPaired (Render deferredSkyboxEngine (sceneWith [])).2 = true :=
  ⟨rfl, by decide,
    ((Render_depth_target_pairs deferredSkyboxEngine (sceneWith [])).1 rfl (by decide)).2⟩

end VQEngine
